import Mathlib

/-! # curlychungus: the WebDriver protocol client

A shallow embedding of `src/webdriver.cpp` and `src/webdriver.hpp`.

* C++ exceptions are values of `Error`, one constructor per exception class thrown.
* The client's mutable state and the observable effects (transport calls, sleeps) are
  threaded explicitly: a method maps a `State` to a result and the state afterwards, so a
  state change made before a `throw` is still visible after it.
* The transport (`curling::Request::send`) and the JSON codec (`json::parse`,
  `json::dump`) are outside the repository; they are parameters, bundled in `Env`.
-/

namespace WebDriver

/-! ## Structured values (`nlohmann::json`) -/

/-- A `nlohmann::json` value. An object is an association list standing for the library's
`std::map`; a key is looked up from the front. Floating-point numbers are left out. -/
inductive Json where
  | null
  | bool (b : Bool)
  | num (n : Int)
  | str (s : String)
  | arr (xs : List Json)
  | obj (kvs : List (String × Json))

/-- The exceptions the client can raise, by C++ class. `parse_error`, `type_error` and
`out_of_range` are the classes of `nlohmann::json` (all derived from `json::exception`),
the two last with the library's numeric id. -/
inductive Error where
  | logic_error (what : String)
  | runtime_error (what : String)
  | invalid_argument (what : String)
  | parse_error
  | type_error (id : Nat)
  | out_of_range (id : Nat)
  deriving DecidableEq

namespace Json

/-- Models `j.contains(key)`: true only for an object that has the key. -/
def contains (j : Json) (key : String) : Bool :=
  match j with
  | obj kvs => (kvs.lookup key).isSome
  | _ => false

/-- Models `j[key]` on an object. The only use in the source follows `contains`, so the key is
there; a missing key reads as null, which is what the library inserts. -/
def index (j : Json) (key : String) : Json :=
  match j with
  | obj kvs => (kvs.lookup key).getD null
  | _ => null

/-- Models `j.at(key)`: `out_of_range` 403 for a missing key, `type_error` 304 off an object. -/
def atKey (j : Json) (key : String) : Except Error Json :=
  match j with
  | obj kvs =>
    match kvs.lookup key with
    | some v => .ok v
    | none => .error (.out_of_range 403)
  | _ => .error (.type_error 304)

/-- Models `j.get<std::string>()`: `type_error` 302 unless the value is a string. -/
def getString (j : Json) : Except Error String :=
  match j with
  | str s => .ok s
  | _ => .error (.type_error 302)

/-- Models `j.get<bool>()`: `type_error` 302 unless the value is a boolean. -/
def getBool (j : Json) : Except Error Bool :=
  match j with
  | bool b => .ok b
  | _ => .error (.type_error 302)

/-- Models `j.value(key, default)` with a string default: the field converted to a string when
the key is there, the default when it is not, `type_error` 306 off an object. -/
def value (j : Json) (key : String) (dflt : String) : Except Error String :=
  match j with
  | obj kvs =>
    match kvs.lookup key with
    | some v => v.getString
    | none => .ok dflt
  | _ => .error (.type_error 306)

/-- Models `j.is_null()`. -/
def isNull (j : Json) : Bool :=
  match j with
  | null => true
  | _ => false

/-- The elements a range-for over `j` visits: the entries of an array, the values of an
object, nothing for null, and the value itself for any other scalar. -/
def items (j : Json) : List Json :=
  match j with
  | arr xs => xs
  | obj kvs => kvs.map Prod.snd
  | null => []
  | other => [other]

/-- Models `j.get<std::vector<std::string>>()`: an array whose entries are all strings. -/
def getStringList (j : Json) : Except Error (List String) :=
  match j with
  | arr xs => xs.mapM getString
  | _ => .error (.type_error 302)

/-- Models `j.get<std::vector<json>>()`: the entries of an array. -/
def getJsonList (j : Json) : Except Error (List Json) :=
  match j with
  | arr xs => .ok xs
  | _ => .error (.type_error 302)

end Json

/-! ## Transport and client state -/

/-- Models `curling::Request::Method`, as far as the client uses it. -/
inductive Method where
  | GET
  | POST
  | DEL
  deriving DecidableEq

/-- What the client puts into one `curling::Request` before `send()`. -/
structure Request where
  method : Method
  url : String
  headers : List String
  body : Option String
  deriving DecidableEq

/-- What `send()` hands back: `httpCode` and `body`. -/
structure Response where
  httpCode : Int
  body : String

/-- The collaborators of the client: the base URL it was constructed with, the transport
(its answer may depend on the requests sent before), and the JSON codec. `parse` gives
`none` where `json::parse` throws. -/
structure Env where
  baseUrl : String
  send : List Request → Request → Response
  parse : String → Option Json
  dump : Json → String

/-- The member `sid` together with the trace of effects: the requests handed to the
transport and the sleeps requested, oldest first. -/
structure State where
  sid : String
  sent : List Request
  waits : List Nat

/-- The lambda inside `request` that maps the method string to the transport's enum. -/
def toMethod (method : String) : Option Method :=
  if method = "GET" then some Method.GET
  else if method = "POST" then some Method.POST
  else if method = "DELETE" then some Method.DEL
  else none

/-- The `curling::Request` that `request` builds: method, URL, the one header, and a body
only for a payload. -/
def mkRequest (env : Env) (m : Method) (path : String) (payload : Option Json) : Request :=
  Request.mk m (env.baseUrl ++ path) ["Content-Type: application/json"] (payload.map env.dump)

/-- Models `WebDriverClient::request`. -/
def request (env : Env) (method path : String) (payload : Option Json) (st : State) :
    Except Error Json × State :=
  match toMethod method with
  | none => (.error (.logic_error "Unsupported HTTP method"), st)
  | some m =>
    let req := mkRequest env m path payload
    let res := env.send st.sent req
    let st1 : State := State.mk st.sid (st.sent ++ [req]) st.waits
    if res.httpCode < 200 ∨ res.httpCode ≥ 300 then
      (.error (.runtime_error
        ("HTTP " ++ toString res.httpCode ++ " error on " ++ method ++ " " ++ path ++ ": " ++
          res.body)), st1)
    else
      match env.parse res.body with
      | none => (.error .parse_error, st1)
      | some resp =>
        if resp.contains "value" then (.ok (resp.index "value"), st1)
        else (.ok resp, st1)

/-! ## Endpoint methods

Each method is written as in `src/webdriver.cpp`: the session guard, one call of
`request`, and the narrowing of the unwrapped value to the return type. -/

/-- A `void` method drops the value `request` returned. -/
def discard (r : Except Error Json × State) : Except Error Unit × State :=
  (r.1.map (fun _ => ()), r.2)

/-- A typed method converts the value `request` returned; the conversion may throw. -/
def narrow {α : Type} (f : Json → Except Error α) (r : Except Error Json × State) :
    Except Error α × State :=
  (r.1.bind f, r.2)

/-- The element-reference key of the W3C protocol. -/
def elementKey : String := "element-6066-11e4-a52e-4f735466cecf"

/-- The body of the two locate calls: `json{{"using", using_}, {"value", value}}`. -/
def locator (using_ value : String) : Json :=
  .obj [("using", .str using_), ("value", .str value)]

/-- The loop of `findElements` and `findChildElements`: every visited entry is read with
`e.at(key).get<std::string>()`, and the first entry that throws ends the call. -/
def elementIds (arr : Json) : Except Error (List String) :=
  arr.items.mapM (fun e => (e.atKey elementKey).bind Json.getString)

/-- The default argument of `createSession`. -/
def defaultCaps : Json :=
  .obj [("capabilities", .obj [("alwaysMatch", .obj [("browserName", .str "firefox")])])]

/-- Models `WebDriverClient::createSession`. The inner `v.value("session_id", "")` is an argument
of the outer call, so it is evaluated (and may throw) first. -/
def createSession (env : Env) (caps : Json) (st : State) : Except Error String × State :=
  match request env "POST" "/session" (some caps) st with
  | (.error e, st1) => (.error e, st1)
  | (.ok v, st1) =>
    match v.value "session_id" "" with
    | .error e => (.error e, st1)
    | .ok dflt =>
      match v.value "sessionId" dflt with
      | .error e => (.error e, st1)
      | .ok s => (.ok s, State.mk s st1.sent st1.waits)

/-- Models `WebDriverClient::deleteSession`. -/
def deleteSession (env : Env) (st : State) : Except Error Unit × State :=
  if st.sid = "" then (.error (.runtime_error "No active session to delete"), st)
  else
    match request env "DELETE" ("/session/" ++ st.sid) none st with
    | (.error e, st1) => (.error e, st1)
    | (.ok _, st1) => (.ok (), State.mk "" st1.sent st1.waits)

/-- Models `WebDriverClient::getStatus`. -/
def getStatus (env : Env) (st : State) : Except Error Json × State :=
  request env "GET" "/status" none st

/-- Models `WebDriverClient::navigateTo`. -/
def navigateTo (env : Env) (url : String) (st : State) : Except Error Unit × State :=
  if st.sid = "" then (.error (.runtime_error "Session not created"), st)
  else discard
    (request env "POST" ("/session/" ++ st.sid ++ "/url") (some (.obj [("url", .str url)])) st)

/-- Models `WebDriverClient::getCurrentUrl`. -/
def getCurrentUrl (env : Env) (st : State) : Except Error String × State :=
  if st.sid = "" then (.error (.runtime_error "Session not created"), st)
  else narrow Json.getString (request env "GET" ("/session/" ++ st.sid ++ "/url") none st)

/-- Models `WebDriverClient::back`. -/
def back (env : Env) (st : State) : Except Error Unit × State :=
  if st.sid = "" then (.error (.runtime_error "Session not created"), st)
  else discard (request env "POST" ("/session/" ++ st.sid ++ "/back") (some (.obj [])) st)

/-- Models `WebDriverClient::forward`. -/
def forward (env : Env) (st : State) : Except Error Unit × State :=
  if st.sid = "" then (.error (.runtime_error "Session not created"), st)
  else discard (request env "POST" ("/session/" ++ st.sid ++ "/forward") (some (.obj [])) st)

/-- Models `WebDriverClient::refresh`. -/
def refresh (env : Env) (st : State) : Except Error Unit × State :=
  if st.sid = "" then (.error (.runtime_error "Session not created"), st)
  else discard (request env "POST" ("/session/" ++ st.sid ++ "/refresh") (some (.obj [])) st)

/-- Models `WebDriverClient::getTitle`. -/
def getTitle (env : Env) (st : State) : Except Error String × State :=
  if st.sid = "" then (.error (.runtime_error "Session not created"), st)
  else narrow Json.getString
    (request env "GET" ("/session/" ++ st.sid ++ "/title") (some (.obj [])) st)

/-- Models `WebDriverClient::setTimeouts`. -/
def setTimeouts (env : Env) (timeouts : Json) (st : State) : Except Error Unit × State :=
  if st.sid = "" then (.error (.runtime_error "Session not created"), st)
  else discard (request env "POST" ("/session/" ++ st.sid ++ "/timeouts") (some timeouts) st)

/-- Models `WebDriverClient::getTimeouts`. -/
def getTimeouts (env : Env) (st : State) : Except Error Json × State :=
  if st.sid = "" then (.error (.runtime_error "Session not created"), st)
  else request env "GET" ("/session/" ++ st.sid ++ "/timeouts") none st

/-- Models `WebDriverClient::getWindowHandle`. -/
def getWindowHandle (env : Env) (st : State) : Except Error String × State :=
  if st.sid = "" then (.error (.runtime_error "Session not created"), st)
  else narrow Json.getString (request env "GET" ("/session/" ++ st.sid ++ "/window") none st)

/-- Models `WebDriverClient::getWindowHandles`. -/
def getWindowHandles (env : Env) (st : State) : Except Error (List String) × State :=
  if st.sid = "" then (.error (.runtime_error "Session not created"), st)
  else narrow Json.getStringList
    (request env "GET" ("/session/" ++ st.sid ++ "/window/handles") none st)

/-- Models `WebDriverClient::closeWindow`. -/
def closeWindow (env : Env) (st : State) : Except Error Unit × State :=
  if st.sid = "" then (.error (.runtime_error "Session not created"), st)
  else discard (request env "DELETE" ("/session/" ++ st.sid ++ "/window") (some (.obj [])) st)

/-- Models `WebDriverClient::switchWindow`. -/
def switchWindow (env : Env) (handle : String) (st : State) : Except Error Unit × State :=
  if st.sid = "" then (.error (.runtime_error "Session not created"), st)
  else discard
    (request env "POST" ("/session/" ++ st.sid ++ "/window")
      (some (.obj [("handle", .str handle)])) st)

/-- Models `WebDriverClient::getWindowRect`. -/
def getWindowRect (env : Env) (st : State) : Except Error Json × State :=
  if st.sid = "" then (.error (.runtime_error "Session not created"), st)
  else request env "GET" ("/session/" ++ st.sid ++ "/window/rect") none st

/-- Models `WebDriverClient::setWindowRect`. -/
def setWindowRect (env : Env) (rect : Json) (st : State) : Except Error Unit × State :=
  if st.sid = "" then (.error (.runtime_error "Session not created"), st)
  else discard (request env "POST" ("/session/" ++ st.sid ++ "/window/rect") (some rect) st)

/-- Models `WebDriverClient::maximizeWindow`. -/
def maximizeWindow (env : Env) (st : State) : Except Error Unit × State :=
  if st.sid = "" then (.error (.runtime_error "Session not created"), st)
  else discard
    (request env "POST" ("/session/" ++ st.sid ++ "/window/maximize") (some (.obj [])) st)

/-- Models `WebDriverClient::minimizeWindow`. -/
def minimizeWindow (env : Env) (st : State) : Except Error Unit × State :=
  if st.sid = "" then (.error (.runtime_error "Session not created"), st)
  else discard
    (request env "POST" ("/session/" ++ st.sid ++ "/window/minimize") (some (.obj [])) st)

/-- Models `WebDriverClient::fullscreenWindow`. -/
def fullscreenWindow (env : Env) (st : State) : Except Error Unit × State :=
  if st.sid = "" then (.error (.runtime_error "Session not created"), st)
  else discard
    (request env "POST" ("/session/" ++ st.sid ++ "/window/fullscreen") (some (.obj [])) st)

/-- Models `WebDriverClient::switchFrame`. The first branch of the conditional is `json{}`, a
value-initialised `json`, which is null. -/
def switchFrame (env : Env) (id : Json) (st : State) : Except Error Unit × State :=
  if st.sid = "" then (.error (.runtime_error "Session not created"), st)
  else discard (request env "POST" ("/session/" ++ st.sid ++ "/frame")
    (some (if id.isNull then Json.null else .obj [("id", id)])) st)

/-- Models `WebDriverClient::switchToParentFrame`. -/
def switchToParentFrame (env : Env) (st : State) : Except Error Unit × State :=
  if st.sid = "" then (.error (.runtime_error "Session not created"), st)
  else discard (request env "POST" ("/session/" ++ st.sid ++ "/frame/parent") (some (.obj [])) st)

/-- Models `WebDriverClient::findElement`. -/
def findElement (env : Env) (using_ value : String) (st : State) : Except Error String × State :=
  if st.sid = "" then (.error (.runtime_error "Session not created"), st)
  else narrow (fun v => (v.atKey elementKey).bind Json.getString)
    (request env "POST" ("/session/" ++ st.sid ++ "/element") (some (locator using_ value)) st)

/-- Models `WebDriverClient::findElements`. -/
def findElements (env : Env) (using_ value : String) (st : State) :
    Except Error (List String) × State :=
  if st.sid = "" then (.error (.runtime_error "Session not created"), st)
  else narrow elementIds
    (request env "POST" ("/session/" ++ st.sid ++ "/elements") (some (locator using_ value)) st)

/-- Models `WebDriverClient::findChildElement`. -/
def findChildElement (env : Env) (eid using_ value : String) (st : State) :
    Except Error String × State :=
  if st.sid = "" then (.error (.runtime_error "Session not created"), st)
  else narrow (fun v => (v.atKey elementKey).bind Json.getString)
    (request env "POST" ("/session/" ++ st.sid ++ "/element/" ++ eid ++ "/element")
      (some (locator using_ value)) st)

/-- Models `WebDriverClient::findChildElements`. -/
def findChildElements (env : Env) (eid using_ value : String) (st : State) :
    Except Error (List String) × State :=
  if st.sid = "" then (.error (.runtime_error "Session not created"), st)
  else narrow elementIds
    (request env "POST" ("/session/" ++ st.sid ++ "/element/" ++ eid ++ "/elements")
      (some (locator using_ value)) st)

/-- Models `WebDriverClient::getElementAttribute`. -/
def getElementAttribute (env : Env) (eid name : String) (st : State) :
    Except Error String × State :=
  if st.sid = "" then (.error (.runtime_error "Session not created"), st)
  else narrow Json.getString
    (request env "GET" ("/session/" ++ st.sid ++ "/element/" ++ eid ++ "/attribute/" ++ name) none st)

/-- Models `WebDriverClient::getElementProperty`. -/
def getElementProperty (env : Env) (eid name : String) (st : State) : Except Error String × State :=
  if st.sid = "" then (.error (.runtime_error "Session not created"), st)
  else narrow Json.getString
    (request env "GET" ("/session/" ++ st.sid ++ "/element/" ++ eid ++ "/property/" ++ name) none st)

/-- Models `WebDriverClient::getElementText`. -/
def getElementText (env : Env) (eid : String) (st : State) : Except Error String × State :=
  if st.sid = "" then (.error (.runtime_error "Session not created"), st)
  else narrow Json.getString
    (request env "GET" ("/session/" ++ st.sid ++ "/element/" ++ eid ++ "/text") none st)

/-- Models `WebDriverClient::getElementTagName`. -/
def getElementTagName (env : Env) (eid : String) (st : State) : Except Error String × State :=
  if st.sid = "" then (.error (.runtime_error "Session not created"), st)
  else narrow Json.getString
    (request env "GET" ("/session/" ++ st.sid ++ "/element/" ++ eid ++ "/name") none st)

/-- Models `WebDriverClient::isElementSelected`. -/
def isElementSelected (env : Env) (eid : String) (st : State) : Except Error Bool × State :=
  if st.sid = "" then (.error (.runtime_error "Session not created"), st)
  else narrow Json.getBool
    (request env "GET" ("/session/" ++ st.sid ++ "/element/" ++ eid ++ "/selected") none st)

/-- Models `WebDriverClient::isElementEnabled`. -/
def isElementEnabled (env : Env) (eid : String) (st : State) : Except Error Bool × State :=
  if st.sid = "" then (.error (.runtime_error "Session not created"), st)
  else narrow Json.getBool
    (request env "GET" ("/session/" ++ st.sid ++ "/element/" ++ eid ++ "/enabled") none st)

/-- Models `WebDriverClient::getElementRect`. -/
def getElementRect (env : Env) (eid : String) (st : State) : Except Error Json × State :=
  if st.sid = "" then (.error (.runtime_error "Session not created"), st)
  else request env "GET" ("/session/" ++ st.sid ++ "/element/" ++ eid ++ "/rect") none st

/-- Models `WebDriverClient::clickElement`. -/
def clickElement (env : Env) (eid : String) (st : State) : Except Error Unit × State :=
  if st.sid = "" then (.error (.runtime_error "Session not created"), st)
  else discard
    (request env "POST" ("/session/" ++ st.sid ++ "/element/" ++ eid ++ "/click")
      (some (.obj [])) st)

/-- Models `WebDriverClient::clearElement`. -/
def clearElement (env : Env) (eid : String) (st : State) : Except Error Unit × State :=
  if st.sid = "" then (.error (.runtime_error "Session not created"), st)
  else discard
    (request env "POST" ("/session/" ++ st.sid ++ "/element/" ++ eid ++ "/clear")
      (some (.obj [])) st)

/-- The bytes of the UTF-8 encoding of one character. -/
def utf8Bytes (c : Char) : List Nat :=
  if c.toNat < 128 then [c.toNat]
  else if c.toNat < 2048 then [192 + c.toNat / 64, 128 + c.toNat % 64]
  else if c.toNat < 65536 then
    [224 + c.toNat / 4096, 128 + c.toNat / 64 % 64, 128 + c.toNat % 64]
  else
    [240 + c.toNat / 262144, 128 + c.toNat / 4096 % 64, 128 + c.toNat / 64 % 64,
      128 + c.toNat % 64]

/-- The `char`s of a `std::string`, as byte values. A `std::string` of the program is
modelled by a `String`, and its `char`s are the bytes of the UTF-8 encoding. -/
def stringBytes (s : String) : List Nat :=
  (s.toList.map utf8Bytes).flatten

/-- The number a `char` holding the byte `b` converts to, `char` being a signed type (as it is
on x86). -/
def signedChar (b : Nat) : Int :=
  if b < 128 then (b : Int) else (b : Int) - 256

/-- Models `WebDriverClient::sendKeys`. The `std::vector<char>` becomes an array with one number
per `char` of the text, that is, per byte. -/
def sendKeys (env : Env) (eid text : String) (st : State) : Except Error Unit × State :=
  if st.sid = "" then (.error (.runtime_error "Session not created"), st)
  else discard (request env "POST" ("/session/" ++ st.sid ++ "/element/" ++ eid ++ "/value")
    (some (.obj [("text", .str text),
      ("value", .arr ((stringBytes text).map (fun b => Json.num (signedChar b))))])) st)

/-- Models `WebDriverClient::executeScript`. -/
def executeScript (env : Env) (script : String) (args : Json) (st : State) :
    Except Error Json × State :=
  if st.sid = "" then (.error (.runtime_error "Session not created"), st)
  else request env "POST" ("/session/" ++ st.sid ++ "/execute/sync")
    (some (.obj [("script", .str script), ("args", args)])) st

/-- Models `WebDriverClient::executeAsyncScript`. -/
def executeAsyncScript (env : Env) (script : String) (args : Json) (st : State) :
    Except Error Json × State :=
  if st.sid = "" then (.error (.runtime_error "Session not created"), st)
  else request env "POST" ("/session/" ++ st.sid ++ "/execute/async")
    (some (.obj [("script", .str script), ("args", args)])) st

/-- Models `WebDriverClient::getAllCookies`. -/
def getAllCookies (env : Env) (st : State) : Except Error (List Json) × State :=
  if st.sid = "" then (.error (.runtime_error "Session not created"), st)
  else narrow Json.getJsonList (request env "GET" ("/session/" ++ st.sid ++ "/cookie") none st)

/-- Models `WebDriverClient::getCookie`. -/
def getCookie (env : Env) (name : String) (st : State) : Except Error Json × State :=
  if st.sid = "" then (.error (.runtime_error "Session not created"), st)
  else request env "GET" ("/session/" ++ st.sid ++ "/cookie/" ++ name) none st

/-- Models `WebDriverClient::addCookie`. -/
def addCookie (env : Env) (cookie : Json) (st : State) : Except Error Unit × State :=
  if st.sid = "" then (.error (.runtime_error "Session not created"), st)
  else discard
    (request env "POST" ("/session/" ++ st.sid ++ "/cookie") (some (.obj [("cookie", cookie)])) st)

/-- Models `WebDriverClient::deleteCookie`. -/
def deleteCookie (env : Env) (name : String) (st : State) : Except Error Unit × State :=
  if st.sid = "" then (.error (.runtime_error "Session not created"), st)
  else discard (request env "DELETE" ("/session/" ++ st.sid ++ "/cookie/" ++ name) none st)

/-- Models `WebDriverClient::deleteAllCookies`. -/
def deleteAllCookies (env : Env) (st : State) : Except Error Unit × State :=
  if st.sid = "" then (.error (.runtime_error "Session not created"), st)
  else discard (request env "DELETE" ("/session/" ++ st.sid ++ "/cookie") none st)

/-- Models `WebDriverClient::acceptAlert`. -/
def acceptAlert (env : Env) (st : State) : Except Error Unit × State :=
  if st.sid = "" then (.error (.runtime_error "Session not created"), st)
  else discard (request env "POST" ("/session/" ++ st.sid ++ "/alert/accept") (some (.obj [])) st)

/-- Models `WebDriverClient::dismissAlert`. -/
def dismissAlert (env : Env) (st : State) : Except Error Unit × State :=
  if st.sid = "" then (.error (.runtime_error "Session not created"), st)
  else discard (request env "POST" ("/session/" ++ st.sid ++ "/alert/dismiss") (some (.obj [])) st)

/-- Models `WebDriverClient::getAlertText`. -/
def getAlertText (env : Env) (st : State) : Except Error String × State :=
  if st.sid = "" then (.error (.runtime_error "Session not created"), st)
  else narrow Json.getString (request env "GET" ("/session/" ++ st.sid ++ "/alert/text") none st)

/-- Models `WebDriverClient::setAlertText`. -/
def setAlertText (env : Env) (text : String) (st : State) : Except Error Unit × State :=
  if st.sid = "" then (.error (.runtime_error "Session not created"), st)
  else discard
    (request env "POST" ("/session/" ++ st.sid ++ "/alert/text")
      (some (.obj [("text", .str text)])) st)

/-- Models `WebDriverClient::takeScreenshot`. -/
def takeScreenshot (env : Env) (st : State) : Except Error String × State :=
  if st.sid = "" then (.error (.runtime_error "Session not created"), st)
  else narrow Json.getString (request env "GET" ("/session/" ++ st.sid ++ "/screenshot") none st)

/-- Models `WebDriverClient::takeElementScreenshot`. -/
def takeElementScreenshot (env : Env) (eid : String) (st : State) : Except Error String × State :=
  if st.sid = "" then (.error (.runtime_error "Session not created"), st)
  else narrow Json.getString
    (request env "GET" ("/session/" ++ st.sid ++ "/element/" ++ eid ++ "/screenshot") none st)

/-- Models `WebDriverClient::printPage`. -/
def printPage (env : Env) (printOptions : Json) (st : State) : Except Error Json × State :=
  if st.sid = "" then (.error (.runtime_error "Session not created"), st)
  else request env "POST" ("/session/" ++ st.sid ++ "/print")
    (some (.obj [("printOptions", printOptions)])) st

/-- Models `WebDriverClient::performActions`. -/
def performActions (env : Env) (actions : Json) (st : State) : Except Error Unit × State :=
  if st.sid = "" then (.error (.runtime_error "Session not created"), st)
  else discard
    (request env "POST" ("/session/" ++ st.sid ++ "/actions")
      (some (.obj [("actions", actions)])) st)

/-- Models `WebDriverClient::waitMS`: the sleep is recorded in the trace. -/
def waitMS (ms : Nat) (st : State) : Except Error Unit × State :=
  (.ok (), State.mk st.sid st.sent (st.waits ++ [ms]))

/-- Models `WebDriverClient::setFile`. The source has no session guard here. -/
def setFile (env : Env) (elementId : String) (filePaths : List String) (st : State) :
    Except Error Unit × State :=
  discard (request env "POST" ("/session/" ++ st.sid ++ "/element/" ++ elementId ++ "/file")
    (some (.obj [("files", .arr (filePaths.map Json.str))])) st)

/-! ## Slow key entry -/

/-- The value of a 32-bit pattern read as a signed `int` (two's complement). -/
def toInt32 (n : Int) : Int :=
  if n % 4294967296 < 2147483648 then n % 4294967296 else n % 4294967296 - 4294967296

/-- The delay handed to `waitMS` for one character: `static_cast<int>(baseDelayMs)` plus the
drawn jitter in `int` arithmetic, then clamped at zero. -/
def slowDelay (baseDelayMs : Nat) (jitter : Int) : Nat :=
  let delay := toInt32 (toInt32 baseDelayMs + jitter)
  (if delay < 0 then 0 else delay).toNat

/-- The call `sendKeys(eid, s)` inside `sendKeysSlowly`, where `s` is `std::string(1, c)` and
`b` is the byte held by `c`. Below 128 the string is the one ASCII character. From 128 on,
`b` is a byte of a multi-byte character and the one-`char` string is not valid UTF-8 (it is
no value of `String`): the guard of `sendKeys` comes first, and then `payload->dump()` in
`request` throws the codec's type error 316, before anything is sent. -/
def sendKeysByte (env : Env) (eid : String) (b : Nat) (st : State) :
    Except Error Unit × State :=
  if b < 128 then sendKeys env eid (String.singleton (Char.ofNat b)) st
  else if st.sid = "" then (.error (.runtime_error "Session not created"), st)
  else (.error (.type_error 316), st)

/-- The loop of `sendKeysSlowly` over the `char`s (bytes) still to send; `i` counts the draws
made so far, `dist i` being the value of the `i`-th `dist(gen)`. -/
def sendKeysSlowlyLoop (env : Env) (eid : String) (baseDelayMs : Nat) (dist : Nat → Int) :
    List Nat → Nat → State → Except Error Unit × State
  | [], _, st => (.ok (), st)
  | c :: cs, i, st =>
    match sendKeysByte env eid c st with
    | (.error e, st1) => (.error e, st1)
    | (.ok _, st1) =>
      sendKeysSlowlyLoop env eid baseDelayMs dist cs (i + 1)
        (waitMS (slowDelay baseDelayMs (dist i)) st1).2

/-- Models `WebDriverClient::sendKeysSlowly`. The random draws are an argument: `dist i` is the
`i`-th value of the uniform distribution over [-20, 20]. -/
def sendKeysSlowly (env : Env) (eid text : String) (baseDelayMs : Nat) (dist : Nat → Int)
    (st : State) : Except Error Unit × State :=
  sendKeysSlowlyLoop env eid baseDelayMs dist (stringBytes text) 0 st

/-! ## The public interface as data -/

/-- A value returned by a public method, tagged with its C++ type. -/
inductive Ret where
  | unit
  | str (s : String)
  | bool (b : Bool)
  | json (j : Json)
  | strs (l : List String)
  | jsons (l : List Json)

/-- One call of a public method of `WebDriverClient`, with its arguments. -/
inductive Call where
  | createSession (caps : Json)
  | deleteSession
  | getStatus
  | navigateTo (url : String)
  | getCurrentUrl
  | back
  | forward
  | refresh
  | getTitle
  | setTimeouts (timeouts : Json)
  | getTimeouts
  | getWindowHandle
  | getWindowHandles
  | closeWindow
  | switchWindow (handle : String)
  | getWindowRect
  | setWindowRect (rect : Json)
  | maximizeWindow
  | minimizeWindow
  | fullscreenWindow
  | switchFrame (id : Json)
  | switchToParentFrame
  | findElement (using_ value : String)
  | findElements (using_ value : String)
  | findChildElement (eid using_ value : String)
  | findChildElements (eid using_ value : String)
  | getElementAttribute (eid name : String)
  | getElementProperty (eid name : String)
  | getElementText (eid : String)
  | getElementTagName (eid : String)
  | isElementSelected (eid : String)
  | isElementEnabled (eid : String)
  | getElementRect (eid : String)
  | clickElement (eid : String)
  | clearElement (eid : String)
  | sendKeys (eid text : String)
  | executeScript (script : String) (args : Json)
  | executeAsyncScript (script : String) (args : Json)
  | getAllCookies
  | getCookie (name : String)
  | addCookie (cookie : Json)
  | deleteCookie (name : String)
  | deleteAllCookies
  | acceptAlert
  | dismissAlert
  | getAlertText
  | setAlertText (text : String)
  | takeScreenshot
  | takeElementScreenshot (eid : String)
  | printPage (printOptions : Json)
  | waitMS (ms : Nat)
  | sendKeysSlowly (eid text : String) (baseDelayMs : Nat) (dist : Nat → Int)
  | performActions (actions : Json)
  | setFile (elementId : String) (filePaths : List String)

/-- Tags the result of a method with its type. -/
def tag {α : Type} (f : α → Ret) (r : Except Error α × State) : Except Error Ret × State :=
  (r.1.map f, r.2)

/-- Runs one call of the public interface. -/
def runCall (env : Env) (c : Call) (st : State) : Except Error Ret × State :=
  match c with
  | .createSession caps => tag Ret.str (createSession env caps st)
  | .deleteSession => tag (fun _ => Ret.unit) (deleteSession env st)
  | .getStatus => tag Ret.json (getStatus env st)
  | .navigateTo url => tag (fun _ => Ret.unit) (navigateTo env url st)
  | .getCurrentUrl => tag Ret.str (getCurrentUrl env st)
  | .back => tag (fun _ => Ret.unit) (back env st)
  | .forward => tag (fun _ => Ret.unit) (forward env st)
  | .refresh => tag (fun _ => Ret.unit) (refresh env st)
  | .getTitle => tag Ret.str (getTitle env st)
  | .setTimeouts timeouts => tag (fun _ => Ret.unit) (setTimeouts env timeouts st)
  | .getTimeouts => tag Ret.json (getTimeouts env st)
  | .getWindowHandle => tag Ret.str (getWindowHandle env st)
  | .getWindowHandles => tag Ret.strs (getWindowHandles env st)
  | .closeWindow => tag (fun _ => Ret.unit) (closeWindow env st)
  | .switchWindow handle => tag (fun _ => Ret.unit) (switchWindow env handle st)
  | .getWindowRect => tag Ret.json (getWindowRect env st)
  | .setWindowRect rect => tag (fun _ => Ret.unit) (setWindowRect env rect st)
  | .maximizeWindow => tag (fun _ => Ret.unit) (maximizeWindow env st)
  | .minimizeWindow => tag (fun _ => Ret.unit) (minimizeWindow env st)
  | .fullscreenWindow => tag (fun _ => Ret.unit) (fullscreenWindow env st)
  | .switchFrame id => tag (fun _ => Ret.unit) (switchFrame env id st)
  | .switchToParentFrame => tag (fun _ => Ret.unit) (switchToParentFrame env st)
  | .findElement using_ value => tag Ret.str (findElement env using_ value st)
  | .findElements using_ value => tag Ret.strs (findElements env using_ value st)
  | .findChildElement eid using_ value => tag Ret.str (findChildElement env eid using_ value st)
  | .findChildElements eid using_ value => tag Ret.strs (findChildElements env eid using_ value st)
  | .getElementAttribute eid name => tag Ret.str (getElementAttribute env eid name st)
  | .getElementProperty eid name => tag Ret.str (getElementProperty env eid name st)
  | .getElementText eid => tag Ret.str (getElementText env eid st)
  | .getElementTagName eid => tag Ret.str (getElementTagName env eid st)
  | .isElementSelected eid => tag Ret.bool (isElementSelected env eid st)
  | .isElementEnabled eid => tag Ret.bool (isElementEnabled env eid st)
  | .getElementRect eid => tag Ret.json (getElementRect env eid st)
  | .clickElement eid => tag (fun _ => Ret.unit) (clickElement env eid st)
  | .clearElement eid => tag (fun _ => Ret.unit) (clearElement env eid st)
  | .sendKeys eid text => tag (fun _ => Ret.unit) (sendKeys env eid text st)
  | .executeScript script args => tag Ret.json (executeScript env script args st)
  | .executeAsyncScript script args => tag Ret.json (executeAsyncScript env script args st)
  | .getAllCookies => tag Ret.jsons (getAllCookies env st)
  | .getCookie name => tag Ret.json (getCookie env name st)
  | .addCookie cookie => tag (fun _ => Ret.unit) (addCookie env cookie st)
  | .deleteCookie name => tag (fun _ => Ret.unit) (deleteCookie env name st)
  | .deleteAllCookies => tag (fun _ => Ret.unit) (deleteAllCookies env st)
  | .acceptAlert => tag (fun _ => Ret.unit) (acceptAlert env st)
  | .dismissAlert => tag (fun _ => Ret.unit) (dismissAlert env st)
  | .getAlertText => tag Ret.str (getAlertText env st)
  | .setAlertText text => tag (fun _ => Ret.unit) (setAlertText env text st)
  | .takeScreenshot => tag Ret.str (takeScreenshot env st)
  | .takeElementScreenshot eid => tag Ret.str (takeElementScreenshot env eid st)
  | .printPage printOptions => tag Ret.json (printPage env printOptions st)
  | .waitMS ms => tag (fun _ => Ret.unit) (waitMS ms st)
  | .sendKeysSlowly eid text baseDelayMs dist => tag (fun _ => Ret.unit) (sendKeysSlowly env eid text baseDelayMs dist st)
  | .performActions actions => tag (fun _ => Ret.unit) (performActions env actions st)
  | .setFile elementId filePaths => tag (fun _ => Ret.unit) (setFile env elementId filePaths st)

/-- The calls that start with the session guard in the source: every public method but
`createSession`, `getStatus`, `waitMS`, `sendKeysSlowly` and `setFile`. -/
def Call.isGuarded : Call → Bool
  | .createSession _ => false
  | .getStatus => false
  | .waitMS _ => false
  | .sendKeysSlowly _ _ _ _ => false
  | .setFile _ _ => false
  | _ => true

/-! ## Base64 (`namespace detail` of `src/webdriver.hpp`) -/

namespace detail

/-- Models `detail::base64Value`: the 6-bit value of a Base64 character, -1 for the padding
character, an exception for any other character. -/
def base64Value (c : Char) : Except Error Int :=
  if 'A' ≤ c ∧ c ≤ 'Z' then .ok ((c.toNat : Int) - ('A'.toNat : Int))
  else if 'a' ≤ c ∧ c ≤ 'z' then .ok ((c.toNat : Int) - ('a'.toNat : Int) + 26)
  else if '0' ≤ c ∧ c ≤ '9' then .ok ((c.toNat : Int) - ('0'.toNat : Int) + 52)
  else if c = '+' then .ok 62
  else if c = '/' then .ok 63
  else if c = '=' then .ok (-1)
  else .error (.invalid_argument "Invalid Base64 character")

/-- The loop of `detail::base64Decode` over the characters still to read. `bitBuffer` holds
the bit pattern of the `int` as a natural number and `norm` is what storing into the `int`
does to the pattern. Every byte pushed is `(bitBuffer >> bitCount) & 0xFF`: `bitCount` is
at most 4 there, so the byte is made of pattern bits below bit 12, the same for an
arithmetic and a logical shift. -/
def base64DecodeLoop (norm : Nat → Nat) :
    List Char → Nat → Nat → List Nat → Except Error (List Nat)
  | [], _, _, decodedData => .ok decodedData
  | c :: cs, bitBuffer, bitCount, decodedData =>
    if c = '=' then .ok decodedData
    else
      match base64Value c with
      | .error e => .error e
      | .ok val =>
        if val = -1 then base64DecodeLoop norm cs bitBuffer bitCount decodedData
        else
          let bitBuffer := norm ((bitBuffer <<< 6) ||| val.toNat)
          let bitCount := bitCount + 6
          if bitCount ≥ 8 then
            let bitCount := bitCount - 8
            base64DecodeLoop norm cs bitBuffer bitCount
              (decodedData ++ [(bitBuffer >>> bitCount) &&& 0xFF])
          else base64DecodeLoop norm cs bitBuffer bitCount decodedData

/-- The store into the 32-bit buffer. -/
def wrap32 (x : Nat) : Nat := x % 4294967296

/-- Models `detail::base64Decode`, the `int` buffer being 32 bits wide: a store keeps the low 32
bits of the pattern. -/
def base64Decode (input : String) : Except Error (List Nat) :=
  base64DecodeLoop wrap32 input.toList 0 0 []

/-- The Base64 alphabet of RFC 4648. -/
def base64Alphabet : List Char :=
  "ABCDEFGHIJKLMNOPQRSTUVWXYZabcdefghijklmnopqrstuvwxyz0123456789+/".toList

/-- The character of a 6-bit value in the alphabet. -/
def base64Char (v : Nat) : Char := base64Alphabet.getD v 'A'

/-- The standard padded Base64 encoding of a byte sequence (RFC 4648): three bytes give
four characters, a last group of one or two bytes is padded with `=`. The repository has
no encoder; this is the reference the round trip of the decoder is stated against. -/
def standardBase64Chars : List Nat → List Char
  | [] => []
  | [a] => [base64Char (a / 4), base64Char (a % 4 * 16), '=', '=']
  | [a, b] =>
    [base64Char (a / 4), base64Char (a % 4 * 16 + b / 16), base64Char (b % 16 * 4), '=']
  | a :: b :: c :: rest =>
    base64Char (a / 4) :: base64Char (a % 4 * 16 + b / 16) ::
      base64Char (b % 16 * 4 + c / 64) :: base64Char (c % 64) :: standardBase64Chars rest

/-- The encoding as a string. -/
def standardBase64Encode (bytes : List Nat) : String := String.mk (standardBase64Chars bytes)

end detail

/-! ## A test double -/

/-- A server that answers every request with the same status and body, together with a
codec that reads every body as `parsed`. -/
def fixedServer (httpCode : Int) (body : String) (parsed : Option Json) : Env :=
  Env.mk "http://localhost:4444" (fun _ _ => Response.mk httpCode body) (fun _ => parsed)
    (fun _ => "payload")

/-- A client right after construction: no session, nothing sent. -/
def freshState : State := State.mk "" [] []

/-- A client holding the session id `s`, nothing sent yet. -/
def activeState (s : String) : State := State.mk s [] []

/-- A codec double that prints the top level of a value: scalars as JSON prints them, an
array by its length and an object by its keys. -/
def topLevelDump (j : Json) : String :=
  match j with
  | .null => "null"
  | .bool b => if b then "true" else "false"
  | .num n => toString n
  | .str s => "\"" ++ s ++ "\""
  | .arr xs => "array of " ++ toString xs.length
  | .obj kvs => "object with keys " ++ String.intercalate "," (kvs.map Prod.fst)

/-- The server of `fixedServer` with the codec printing the top level of every payload. -/
def shapeServer (httpCode : Int) (body : String) (parsed : Option Json) : Env :=
  Env.mk "http://localhost:4444" (fun _ _ => Response.mk httpCode body) (fun _ => parsed)
    topLevelDump

/-! ## Sequences of calls, classes of errors, the Base64 alphabet -/

/-- A caller that makes the calls one after the other and catches whatever a call throws:
the state after the last call. -/
def runCalls (env : Env) : List Call → State → State
  | [], st => st
  | c :: cs, st => runCalls env cs (runCall env c st).2

/-- The C++ class of the exception, which is all a `catch` clause can select on. -/
def Error.className (e : Error) : String :=
  match e with
  | .logic_error _ => "std::logic_error"
  | .runtime_error _ => "std::runtime_error"
  | .invalid_argument _ => "std::invalid_argument"
  | .parse_error => "nlohmann::json::parse_error"
  | .type_error _ => "nlohmann::json::type_error"
  | .out_of_range _ => "nlohmann::json::out_of_range"

/-- The characters of the Base64 alphabet as the claims name them: A-Z, a-z, 0-9, `+`
and `/`. -/
def detail.isAlphabetChar (c : Char) : Bool :=
  decide (('A' ≤ c ∧ c ≤ 'Z') ∨ ('a' ≤ c ∧ c ≤ 'z') ∨ ('0' ≤ c ∧ c ≤ '9') ∨ c = '+' ∨ c = '/')

/-- The state `st1` comes from `st` with the same session id and with new requests that all
go to "/status" or to a path made of "/session/", the id and a rest. -/
def SessionTrace (env : Env) (st st1 : State) : Prop :=
  st1.sid = st.sid ∧ ∃ new, st1.sent = st.sent ++ new ∧
    ∀ req ∈ new, req.url = env.baseUrl ++ "/status" ∨
      ∃ rest, req.url = env.baseUrl ++ ("/session/" ++ st.sid ++ rest)

/-- The decoder of `detail::base64Decode` with a bit buffer that never overflows: a store
keeps the whole pattern. -/
def detail.base64DecodeUnbounded (input : String) : Except Error (List Nat) :=
  detail.base64DecodeLoop (fun x => x) input.toList 0 0 []

/-- The result is not a `std::logic_error`, whatever its text. -/
def NoLogicError {α : Type} (r : Except Error α) : Prop :=
  ∀ what, r ≠ .error (.logic_error what)

/-! ## The request dispatcher -/

section Dispatcher

/-- With a supported method, `request` is the round trip alone. -/
theorem request_of_method (env : Env) (method path : String) (payload : Option Json)
    (st : State) (m : Method) (hm : toMethod method = some m) :
    request env method path payload st =
      if (env.send st.sent (mkRequest env m path payload)).httpCode < 200 ∨
          (env.send st.sent (mkRequest env m path payload)).httpCode ≥ 300 then
        (.error (.runtime_error
          ("HTTP " ++ toString (env.send st.sent (mkRequest env m path payload)).httpCode ++
            " error on " ++ method ++ " " ++ path ++ ": " ++
            (env.send st.sent (mkRequest env m path payload)).body)),
          State.mk st.sid (st.sent ++ [mkRequest env m path payload]) st.waits)
      else
        match env.parse (env.send st.sent (mkRequest env m path payload)).body with
        | none => (.error .parse_error,
            State.mk st.sid (st.sent ++ [mkRequest env m path payload]) st.waits)
        | some resp =>
          if resp.contains "value" then
            (.ok (resp.index "value"),
              State.mk st.sid (st.sent ++ [mkRequest env m path payload]) st.waits)
          else (.ok resp, State.mk st.sid (st.sent ++ [mkRequest env m path payload]) st.waits) := by
  simp only [request, hm]

/-- Whatever happens, `request` leaves the session id and the sleeps alone. -/
theorem request_sid (env : Env) (method path : String) (payload : Option Json) (st : State) :
    (request env method path payload st).2.sid = st.sid ∧
      (request env method path payload st).2.waits = st.waits := by
  unfold request
  split
  · exact ⟨rfl, rfl⟩
  · dsimp only
    split
    · exact ⟨rfl, rfl⟩
    · split
      · exact ⟨rfl, rfl⟩
      · split <;> exact ⟨rfl, rfl⟩

/-- C1: for a response with a status in [200, 300) whose body parses as JSON, `request`
returns the content of the field `value` when the parsed body is an object with that key
(one level only, whatever the content is), and the whole parsed body otherwise. -/
theorem request_unwraps_value_once (env : Env) (method path : String) (payload : Option Json)
    (st : State) (m : Method) (resp : Json) (hm : toMethod method = some m)
    (hlo : 200 ≤ (env.send st.sent (mkRequest env m path payload)).httpCode)
    (hhi : (env.send st.sent (mkRequest env m path payload)).httpCode < 300)
    (hparse : env.parse (env.send st.sent (mkRequest env m path payload)).body = some resp) :
    (∀ kvs v, resp = .obj kvs → kvs.lookup "value" = some v →
        (request env method path payload st).1 = .ok v) ∧
      ((¬ ∃ kvs v, resp = .obj kvs ∧ kvs.lookup "value" = some v) →
        (request env method path payload st).1 = .ok resp) := by
  rw [request_of_method env method path payload st m hm, if_neg (by omega), hparse]
  constructor
  · intro kvs v hobj hv
    subst hobj
    simp [Json.contains, Json.index, hv]
  · intro hno
    have hc : resp.contains "value" = false := by
      cases resp with
      | obj kvs =>
        cases hl : kvs.lookup "value" with
        | none => simp [Json.contains, hl]
        | some v => exact absurd ⟨kvs, v, rfl, hl⟩ hno
      | _ => rfl
    simp [hc]

/-- C1, at a body whose `value` is itself an object with a key `value`: the inner object
comes back, not its field. -/
theorem request_unwraps_value_once_witness :
    (request (fixedServer 200 "body" (some (.obj [("value", .obj [("value", .num 1)])])))
      "GET" "/status" none freshState).1 = .ok (.obj [("value", .num 1)]) :=
  (request_unwraps_value_once
    (fixedServer 200 "body" (some (.obj [("value", .obj [("value", .num 1)])])))
    "GET" "/status" none freshState Method.GET (.obj [("value", .obj [("value", .num 1)])])
    rfl (by decide) (by decide) rfl).1 [("value", .obj [("value", .num 1)])]
    (.obj [("value", .num 1)]) rfl rfl

/-- C2: `request` raises the status error exactly when the status is below 200 or at
least 300, whatever the body; the text of the error is made of the status code, the
method, the path and the raw body. -/
theorem request_status_error (env : Env) (method path : String) (payload : Option Json)
    (st : State) (m : Method) (hm : toMethod method = some m) :
    ((env.send st.sent (mkRequest env m path payload)).httpCode < 200 ∨
        300 ≤ (env.send st.sent (mkRequest env m path payload)).httpCode →
      (request env method path payload st).1 = .error (.runtime_error
        ("HTTP " ++ toString (env.send st.sent (mkRequest env m path payload)).httpCode ++
          " error on " ++ method ++ " " ++ path ++ ": " ++
          (env.send st.sent (mkRequest env m path payload)).body))) ∧
      (200 ≤ (env.send st.sent (mkRequest env m path payload)).httpCode ∧
        (env.send st.sent (mkRequest env m path payload)).httpCode < 300 →
      ∀ what, (request env method path payload st).1 ≠ .error (.runtime_error what)) := by
  rw [request_of_method env method path payload st m hm]
  constructor
  · intro h
    rw [if_pos (by omega)]
  · intro h what
    rw [if_neg (by omega)]
    split
    · simp
    · split <;> simp

/-- C2, at the statuses 404 (an error whose text holds 404, the method, the path and the
body) and 299 (no status error, not even one with the text a 299 would give). -/
theorem request_status_error_witness :
    (request (fixedServer 404 "no such element" none) "POST" "/session/s1/element" none
        (activeState "s1")).1 =
      .error (.runtime_error "HTTP 404 error on POST /session/s1/element: no such element") ∧
    (request (fixedServer 299 "body" none) "POST" "/session/s1/element" none
        (activeState "s1")).1 ≠
      .error (.runtime_error "HTTP 299 error on POST /session/s1/element: body") :=
  ⟨(request_status_error (fixedServer 404 "no such element" none) "POST" "/session/s1/element"
      none (activeState "s1") Method.POST rfl).1 (by decide),
    (request_status_error (fixedServer 299 "body" none) "POST" "/session/s1/element"
      none (activeState "s1") Method.POST rfl).2 (by decide)
      "HTTP 299 error on POST /session/s1/element: body"⟩

/-- C8: for a method string other than "GET", "POST" and "DELETE", `request` throws the
logic error "Unsupported HTTP method" and the state, the list of transport calls
included, is what it was. -/
theorem request_unsupported_method (env : Env) (method path : String) (payload : Option Json)
    (st : State) (hget : method ≠ "GET") (hpost : method ≠ "POST") (hdel : method ≠ "DELETE") :
    request env method path payload st =
      (.error (.logic_error "Unsupported HTTP method"), st) := by
  simp [request, toMethod, hget, hpost, hdel]

/-- C8, at the methods "PUT" and lower-case "get". -/
theorem request_unsupported_method_witness :
    request (fixedServer 200 "body" (some .null)) "PUT" "/status" none freshState =
        (.error (.logic_error "Unsupported HTTP method"), freshState) ∧
      request (fixedServer 200 "body" (some .null)) "get" "/status" none freshState =
        (.error (.logic_error "Unsupported HTTP method"), freshState) :=
  ⟨request_unsupported_method (fixedServer 200 "body" (some .null)) "PUT" "/status" none
      freshState (by decide) (by decide) (by decide),
    request_unsupported_method (fixedServer 200 "body" (some .null)) "get" "/status" none
      freshState (by decide) (by decide) (by decide)⟩

/-- C9: with a supported method, `request` hands the transport exactly one request: its URL
is the base URL followed by the path, it carries the header
`Content-Type: application/json`, and it has a body exactly when there is a payload, the
body being the dump of the payload. -/
theorem request_sends_one (env : Env) (method path : String) (payload : Option Json)
    (st : State) (m : Method) (hm : toMethod method = some m) :
    ∃ req : Request, (request env method path payload st).2.sent = st.sent ++ [req] ∧
      req.method = m ∧ req.url = env.baseUrl ++ path ∧
      "Content-Type: application/json" ∈ req.headers ∧
      (payload = none → req.body = none) ∧
      (∀ j, payload = some j → req.body = some (env.dump j)) := by
  refine ⟨mkRequest env m path payload, ?_, rfl, rfl, by simp [mkRequest], ?_, ?_⟩
  · rw [request_of_method env method path payload st m hm]
    split
    · rfl
    · split
      · rfl
      · split <;> rfl
  · intro h; subst h; rfl
  · intro j h; subst h; rfl

/-- C9, at a POST with a payload: one request, to the base URL followed by the path, with
the dumped payload as body. -/
theorem request_sends_one_witness :
    ∃ req : Request,
      (request (fixedServer 200 "body" (some .null)) "POST" "/session" (some defaultCaps)
        freshState).2.sent = freshState.sent ++ [req] ∧
      req.method = Method.POST ∧
      req.url = (fixedServer 200 "body" (some .null)).baseUrl ++ "/session" ∧
      "Content-Type: application/json" ∈ req.headers ∧
      (some defaultCaps = none → req.body = none) ∧
      (∀ j, some defaultCaps = some j →
        req.body = some ((fixedServer 200 "body" (some .null)).dump j)) :=
  request_sends_one (fixedServer 200 "body" (some .null)) "POST" "/session" (some defaultCaps)
    freshState Method.POST rfl

/-- C10: for a response with a status in [200, 300) whose body is not JSON, `request` throws
the codec's parse error, which is not the runtime error of a status outside the range. -/
theorem request_malformed_body (env : Env) (method path : String) (payload : Option Json)
    (st : State) (m : Method) (hm : toMethod method = some m)
    (hlo : 200 ≤ (env.send st.sent (mkRequest env m path payload)).httpCode)
    (hhi : (env.send st.sent (mkRequest env m path payload)).httpCode < 300)
    (hparse : env.parse (env.send st.sent (mkRequest env m path payload)).body = none) :
    (request env method path payload st).1 = .error .parse_error ∧
      ∀ what, (request env method path payload st).1 ≠ .error (.runtime_error what) := by
  rw [request_of_method env method path payload st m hm, if_neg (by omega), hparse]
  exact ⟨rfl, fun what h => by simp at h⟩

/-- C10, at a 200 response with an empty body. -/
theorem request_malformed_body_witness :
    (request (fixedServer 200 "" none) "GET" "/status" none freshState).1 =
        .error .parse_error ∧
      (request (fixedServer 200 "" none) "GET" "/status" none freshState).1 ≠
        .error (.runtime_error "HTTP 200 error on GET /status: ") :=
  ⟨(request_malformed_body (fixedServer 200 "" none) "GET" "/status" none freshState
      Method.GET rfl (by decide) (by decide) rfl).1,
    (request_malformed_body (fixedServer 200 "" none) "GET" "/status" none freshState
      Method.GET rfl (by decide) (by decide) rfl).2 "HTTP 200 error on GET /status: "⟩

end Dispatcher

/-! ## Session state -/

section Session

/-- C4: starting from a non-empty session id, `deleteSession` empties the stored id when the
DELETE round trip succeeds (2xx status and a JSON body); when the status is outside
[200, 300), or the status is 2xx and the body is not JSON, the call fails and the stored
id is what it was. -/
theorem deleteSession_clears_on_success_only (env : Env) (st : State) (hs : st.sid ≠ "") :
    (200 ≤ (env.send st.sent (mkRequest env Method.DEL ("/session/" ++ st.sid) none)).httpCode →
      (env.send st.sent (mkRequest env Method.DEL ("/session/" ++ st.sid) none)).httpCode < 300 →
      (env.parse (env.send st.sent
        (mkRequest env Method.DEL ("/session/" ++ st.sid) none)).body).isSome = true →
      (deleteSession env st).1 = .ok () ∧ (deleteSession env st).2.sid = "") ∧
    ((env.send st.sent (mkRequest env Method.DEL ("/session/" ++ st.sid) none)).httpCode < 200 ∨
      300 ≤ (env.send st.sent (mkRequest env Method.DEL ("/session/" ++ st.sid) none)).httpCode →
      (∃ e, (deleteSession env st).1 = .error e) ∧ (deleteSession env st).2.sid = st.sid) ∧
    (200 ≤ (env.send st.sent (mkRequest env Method.DEL ("/session/" ++ st.sid) none)).httpCode →
      (env.send st.sent (mkRequest env Method.DEL ("/session/" ++ st.sid) none)).httpCode < 300 →
      env.parse (env.send st.sent
        (mkRequest env Method.DEL ("/session/" ++ st.sid) none)).body = none →
      (∃ e, (deleteSession env st).1 = .error e) ∧ (deleteSession env st).2.sid = st.sid) := by
  have hm : toMethod "DELETE" = some Method.DEL := rfl
  unfold deleteSession
  rw [if_neg hs, request_of_method env "DELETE" ("/session/" ++ st.sid) none st Method.DEL hm]
  refine ⟨?_, ?_, ?_⟩
  · intro hlo hhi hp
    rw [if_neg (by omega)]
    cases hq : env.parse (env.send st.sent
        (mkRequest env Method.DEL ("/session/" ++ st.sid) none)).body with
    | none => rw [hq] at hp; simp at hp
    | some resp =>
      by_cases hc : resp.contains "value" = true <;> simp [hc]
  · intro h
    rw [if_pos (by omega)]
    exact ⟨⟨_, rfl⟩, rfl⟩
  · intro hlo hhi hp
    rw [if_neg (by omega), hp]
    exact ⟨⟨_, rfl⟩, rfl⟩

/-- C4, at the session id "s1": a 200 answer with a JSON body empties the id, a 500 answer
and a 200 answer without JSON both keep it. -/
theorem deleteSession_clears_on_success_only_witness :
    (deleteSession (fixedServer 200 "body" (some .null)) (activeState "s1")).2.sid = "" ∧
      (deleteSession (fixedServer 500 "body" (some .null)) (activeState "s1")).2.sid = "s1" ∧
      (deleteSession (fixedServer 200 "" none) (activeState "s1")).2.sid = "s1" :=
  ⟨((deleteSession_clears_on_success_only (fixedServer 200 "body" (some .null))
      (activeState "s1") (by decide)).1 (by decide) (by decide) rfl).2,
    ((deleteSession_clears_on_success_only (fixedServer 500 "body" (some .null))
      (activeState "s1") (by decide)).2.1 (by decide)).2,
    ((deleteSession_clears_on_success_only (fixedServer 200 "" none)
      (activeState "s1") (by decide)).2.2 (by decide) (by decide) rfl).2⟩

/-- C5 as stated fails: the unwrapped value is an object whose `sessionId` is the string
"abc", yet `createSession` throws a type error and stores nothing, because the field
`session_id`, read first, holds a number. -/
theorem createSession_sessionId_not_taken :
    (request (fixedServer 200 "body"
        (some (.obj [("value", .obj [("sessionId", .str "abc"), ("session_id", .num 5)])])))
        "POST" "/session" (some defaultCaps) freshState).1 =
      .ok (.obj [("sessionId", .str "abc"), ("session_id", .num 5)]) ∧
    (createSession (fixedServer 200 "body"
        (some (.obj [("value", .obj [("sessionId", .str "abc"), ("session_id", .num 5)])])))
        defaultCaps freshState).1 = .error (.type_error 302) ∧
    (createSession (fixedServer 200 "body"
        (some (.obj [("value", .obj [("sessionId", .str "abc"), ("session_id", .num 5)])])))
        defaultCaps freshState).2.sid = "" :=
  ⟨rfl, rfl, rfl⟩

/-- C5, amended: when the unwrapped value of a successful response to POST /session is an
object in which neither `sessionId` nor `session_id` holds anything but a string,
`createSession` takes the id from `sessionId` when it is present and otherwise from
`session_id`, stores it and returns it; when one of the two fields holds something that is
not a string, the call fails with a type error and the stored id is what it was. -/
theorem createSession_reads_id (env : Env) (caps : Json) (st : State)
    (kvs : List (String × Json))
    (hreq : (request env "POST" "/session" (some caps) st).1 = .ok (.obj kvs)) :
    (∀ s, kvs.lookup "sessionId" = some (.str s) →
        (kvs.lookup "session_id" = none ∨ ∃ t, kvs.lookup "session_id" = some (.str t)) →
        (createSession env caps st).1 = .ok s ∧ (createSession env caps st).2.sid = s) ∧
    (∀ t, kvs.lookup "sessionId" = none → kvs.lookup "session_id" = some (.str t) →
        (createSession env caps st).1 = .ok t ∧ (createSession env caps st).2.sid = t) ∧
    (∀ v, (kvs.lookup "sessionId" = some v ∨ kvs.lookup "session_id" = some v) →
        (∀ s, v ≠ .str s) →
        (createSession env caps st).1 = .error (.type_error 302) ∧
          (createSession env caps st).2.sid = st.sid) := by
  have hsid := (request_sid env "POST" "/session" (some caps) st).1
  unfold createSession
  cases hr : request env "POST" "/session" (some caps) st with
  | mk r st1 =>
    rw [hr] at hreq hsid
    dsimp only at hreq hsid
    subst hreq
    dsimp only
    refine ⟨?_, ?_, ?_⟩
    · intro s h1 h2
      rcases h2 with h2 | ⟨t, h2⟩ <;> simp [Json.value, Json.getString, h1, h2]
    · intro t h1 h2
      simp [Json.value, Json.getString, h1, h2]
    · intro v hv hns
      have hg : v.getString = .error (.type_error 302) := by
        cases v with
        | str s => exact absurd rfl (hns s)
        | _ => rfl
      rcases hv with hv | hv
      · cases h2 : kvs.lookup "session_id" with
        | none => simp [Json.value, hv, h2, hg, hsid]
        | some w =>
          cases w with
          | str t => simp [Json.value, Json.getString, hv, h2, hg, hsid]
          | _ => simp [Json.value, Json.getString, h2, hsid]
      · simp [Json.value, hv, hg, hsid]

/-- C5 amended, at a response with `sessionId` alone and at one with `session_id` alone. -/
theorem createSession_reads_id_witness :
    ((createSession (fixedServer 200 "body" (some (.obj [("value", .obj [("sessionId", .str "abc")])])))
        defaultCaps freshState).1 = .ok "abc" ∧
      (createSession (fixedServer 200 "body" (some (.obj [("value", .obj [("sessionId", .str "abc")])])))
        defaultCaps freshState).2.sid = "abc") ∧
    ((createSession (fixedServer 200 "body" (some (.obj [("session_id", .str "xyz")])))
        defaultCaps freshState).1 = .ok "xyz" ∧
      (createSession (fixedServer 200 "body" (some (.obj [("session_id", .str "xyz")])))
        defaultCaps freshState).2.sid = "xyz") :=
  ⟨(createSession_reads_id
      (fixedServer 200 "body" (some (.obj [("value", .obj [("sessionId", .str "abc")])])))
      defaultCaps freshState [("sessionId", .str "abc")] rfl).1 "abc" rfl (Or.inl rfl),
    (createSession_reads_id (fixedServer 200 "body" (some (.obj [("session_id", .str "xyz")])))
      defaultCaps freshState [("session_id", .str "xyz")] rfl).2.1 "xyz" rfl rfl⟩

/-- Every guarded call made without a session throws a runtime error and changes nothing:
no request reaches the transport. -/
theorem guarded_call_without_session (env : Env) (c : Call) (st : State)
    (hc : c.isGuarded = true) (hs : st.sid = "") :
    ∃ what, runCall env c st = (.error (.runtime_error what), st) := by
  cases c <;> simp only [Call.isGuarded, Bool.false_eq_true] at hc <;>
    first
    | (refine ⟨"Session not created", ?_⟩
       simp [runCall, tag, Except.map, navigateTo, getCurrentUrl, back, forward, refresh,
          getTitle, setTimeouts, getTimeouts, getWindowHandle, getWindowHandles, closeWindow,
          switchWindow, getWindowRect, setWindowRect, maximizeWindow, minimizeWindow,
          fullscreenWindow, switchFrame, switchToParentFrame, findElement, findElements,
          findChildElement, findChildElements, getElementAttribute, getElementProperty,
          getElementText, getElementTagName, isElementSelected, isElementEnabled,
          getElementRect, clickElement, clearElement, sendKeys, executeScript,
          executeAsyncScript, getAllCookies, getCookie, addCookie, deleteCookie,
          deleteAllCookies, acceptAlert, dismissAlert, getAlertText, setAlertText,
          takeScreenshot, takeElementScreenshot, printPage, performActions, hs]
       done)
    | (refine ⟨"No active session to delete", ?_⟩
       simp [runCall, tag, Except.map, deleteSession, hs])

/-- C3 fails for `setFile`: on a client without a session it throws nothing and hands the
transport a POST whose path holds an empty session id. -/
theorem setFile_without_session_sends :
    (setFile (fixedServer 200 "body" (some .null)) "e1" ["/tmp/a.txt"] freshState).1 = .ok () ∧
      (setFile (fixedServer 200 "body" (some .null)) "e1" ["/tmp/a.txt"] freshState).2.sent =
        [Request.mk Method.POST "http://localhost:4444/session//element/e1/file"
          ["Content-Type: application/json"] (some "payload")] :=
  ⟨rfl, rfl⟩

/-- C6: with an active session, when the unwrapped value of a successful response is an
object holding a string under the element-reference key, `findElement` returns that
string; when the unwrapped value has no such key, `findElement` fails. -/
theorem findElement_returns_reference (env : Env) (using_ value : String) (st : State)
    (v : Json) (hs : st.sid ≠ "")
    (hreq : (request env "POST" ("/session/" ++ st.sid ++ "/element")
      (some (locator using_ value)) st).1 = .ok v) :
    (∀ kvs s, v = .obj kvs →
        kvs.lookup "element-6066-11e4-a52e-4f735466cecf" = some (.str s) →
        (findElement env using_ value st).1 = .ok s) ∧
      (v.contains "element-6066-11e4-a52e-4f735466cecf" = false →
        ∃ e, (findElement env using_ value st).1 = .error e) := by
  unfold findElement narrow
  rw [if_neg hs]
  dsimp only
  rw [hreq]
  constructor
  · intro kvs s hobj hk
    subst hobj
    simp [Except.bind, Json.atKey, elementKey, hk, Json.getString]
  · intro hc
    cases v with
    | obj kvs =>
      cases hk : kvs.lookup "element-6066-11e4-a52e-4f735466cecf" with
      | none => exact ⟨.out_of_range 403, by simp [Except.bind, Json.atKey, elementKey, hk]⟩
      | some w => simp [Json.contains, hk] at hc
    | _ => exact ⟨_, rfl⟩

/-- C6, at an envelope holding the reference "e-42" and at an empty object. -/
theorem findElement_returns_reference_witness :
    (findElement (fixedServer 200 "body"
        (some (.obj [("value", .obj [("element-6066-11e4-a52e-4f735466cecf", .str "e-42")])])))
        "css selector" "h1" (activeState "s1")).1 = .ok "e-42" ∧
      ∃ e, (findElement (fixedServer 200 "body" (some (.obj [("value", .obj [])])))
        "css selector" "h1" (activeState "s1")).1 = .error e :=
  ⟨(findElement_returns_reference (fixedServer 200 "body"
        (some (.obj [("value", .obj [("element-6066-11e4-a52e-4f735466cecf", .str "e-42")])])))
      "css selector" "h1" (activeState "s1")
      (.obj [("element-6066-11e4-a52e-4f735466cecf", .str "e-42")]) (by decide) rfl).1
      [("element-6066-11e4-a52e-4f735466cecf", .str "e-42")] "e-42" rfl rfl,
    (findElement_returns_reference (fixedServer 200 "body" (some (.obj [("value", .obj [])])))
      "css selector" "h1" (activeState "s1") (.obj []) (by decide) rfl).2 rfl⟩

end Session

/-! ## Base64 -/

section Base64

open detail

theorem base64Value_char_aux : ∀ v, v < 64 →
    (match base64Value (base64Char v) with
      | .ok x => decide (x = (v : Int))
      | .error _ => false) = true ∧ base64Char v ≠ '=' := by
  decide

theorem base64Value_char (v : Nat) (hv : v < 64) :
    base64Value (base64Char v) = .ok (v : Int) := by
  have h := (base64Value_char_aux v hv).1
  cases hx : base64Value (base64Char v) with
  | error e => rw [hx] at h; simp at h
  | ok x => rw [hx] at h; simp at h; rw [h]

theorem base64Char_ne_pad (v : Nat) (hv : v < 64) : base64Char v ≠ '=' :=
  (base64Value_char_aux v hv).2

theorem base64DecodeLoop_char (norm : Nat → Nat) (v : Nat) (hv : v < 64) (cs : List Char)
    (bitBuffer bitCount : Nat) (out : List Nat) :
    base64DecodeLoop norm (base64Char v :: cs) bitBuffer bitCount out =
      if bitCount + 6 ≥ 8 then
        base64DecodeLoop norm cs (norm (bitBuffer * 64 + v)) (bitCount + 6 - 8)
          (out ++ [norm (bitBuffer * 64 + v) / 2 ^ (bitCount + 6 - 8) % 256])
      else base64DecodeLoop norm cs (norm (bitBuffer * 64 + v)) (bitCount + 6) out := by
  have hor : (bitBuffer <<< 6) ||| v = bitBuffer * 64 + v := by
    have h := Nat.mul_add_lt_is_or (show v < 2 ^ 6 from hv) bitBuffer
    rw [Nat.shiftLeft_eq, Nat.mul_comm, ← h]
  have hne : ((v : Int) = -1) = False := by
    apply eq_false; omega
  rw [base64DecodeLoop]
  simp only [base64Char_ne_pad v hv, if_false, base64Value_char v hv, hne, Int.toNat_ofNat, hor,
    Nat.shiftRight_eq_div_pow]
  have hand : ∀ x : Nat, x &&& 0xFF = x % 256 := fun x =>
    Nat.and_pow_two_sub_one_eq_mod x 8
  simp only [hand]

theorem base64DecodeLoop_group (a b c : Nat) (ha : a < 256) (hb : b < 256) (hc : c < 256)
    (cs : List Char) (bitBuffer : Nat) (out : List Nat) :
    ∃ bitBuffer1, base64DecodeLoop wrap32
      (base64Char (a / 4) :: base64Char (a % 4 * 16 + b / 16) ::
        base64Char (b % 16 * 4 + c / 64) :: base64Char (c % 64) :: cs) bitBuffer 0 out =
      base64DecodeLoop wrap32 cs bitBuffer1 0 (out ++ [a, b, c]) := by
  refine ⟨wrap32 (wrap32 (wrap32 (wrap32 (bitBuffer * 64 + a / 4) * 64 +
    (a % 4 * 16 + b / 16)) * 64 + (b % 16 * 4 + c / 64)) * 64 + c % 64), ?_⟩
  rw [base64DecodeLoop_char _ _ (by omega), if_neg (by omega),
    base64DecodeLoop_char _ _ (by omega), if_pos (by omega),
    base64DecodeLoop_char _ _ (by omega), if_pos (by omega),
    base64DecodeLoop_char _ _ (by omega), if_pos (by omega)]
  simp only [wrap32, List.append_assoc, List.singleton_append]
  have h1 : ((bitBuffer * 64 + a / 4) % 4294967296 * 64 + (a % 4 * 16 + b / 16)) % 4294967296 /
      2 ^ (0 + 6 + 6 - 8) % 256 = a := by
    norm_num; omega
  have h2 : (((bitBuffer * 64 + a / 4) % 4294967296 * 64 + (a % 4 * 16 + b / 16)) % 4294967296 *
      64 + (b % 16 * 4 + c / 64)) % 4294967296 / 2 ^ (0 + 6 + 6 - 8 + 6 - 8) % 256 = b := by
    norm_num; omega
  have h3 : ((((bitBuffer * 64 + a / 4) % 4294967296 * 64 + (a % 4 * 16 + b / 16)) % 4294967296 *
      64 + (b % 16 * 4 + c / 64)) % 4294967296 * 64 + c % 64) % 4294967296 /
      2 ^ (0 + 6 + 6 - 8 + 6 - 8 + 6 - 8) % 256 = c := by
    norm_num; omega
  rw [h1, h2, h3]
  rfl

theorem base64DecodeLoop_encode (bytes : List Nat) :
    (∀ x ∈ bytes, x < 256) → ∀ (bitBuffer : Nat) (out : List Nat),
      base64DecodeLoop wrap32 (standardBase64Chars bytes) bitBuffer 0 out = .ok (out ++ bytes) := by
  induction bytes using standardBase64Chars.induct with
  | case1 => intro _ bitBuffer out; simp [standardBase64Chars, base64DecodeLoop]
  | case2 a =>
    intro h bitBuffer out
    have ha : a < 256 := h a (by simp)
    rw [standardBase64Chars, base64DecodeLoop_char _ _ (by omega), if_neg (by omega),
      base64DecodeLoop_char _ _ (by omega), if_pos (by omega)]
    have h1 : wrap32 (wrap32 (bitBuffer * 64 + a / 4) * 64 + a % 4 * 16) / 2 ^ (0 + 6 + 6 - 8) % 256
        = a := by
      simp only [wrap32]; norm_num; omega
    rw [h1]
    simp [base64DecodeLoop]
  | case3 a b =>
    intro h bitBuffer out
    have ha : a < 256 := h a (by simp)
    have hb : b < 256 := h b (by simp)
    rw [standardBase64Chars, base64DecodeLoop_char _ _ (by omega), if_neg (by omega),
      base64DecodeLoop_char _ _ (by omega), if_pos (by omega),
      base64DecodeLoop_char _ _ (by omega), if_pos (by omega)]
    have h1 : wrap32 (wrap32 (bitBuffer * 64 + a / 4) * 64 + (a % 4 * 16 + b / 16)) /
        2 ^ (0 + 6 + 6 - 8) % 256 = a := by
      simp only [wrap32]; norm_num; omega
    have h2 : wrap32 (wrap32 (wrap32 (bitBuffer * 64 + a / 4) * 64 + (a % 4 * 16 + b / 16)) * 64 +
        b % 16 * 4) / 2 ^ (0 + 6 + 6 - 8 + 6 - 8) % 256 = b := by
      simp only [wrap32]; norm_num; omega
    rw [h1, h2]
    simp [base64DecodeLoop]
  | case4 a b c rest ih =>
    intro h bitBuffer out
    have ha : a < 256 := h a (by simp)
    have hb : b < 256 := h b (by simp)
    have hc : c < 256 := h c (by simp)
    obtain ⟨bitBuffer1, hg⟩ := base64DecodeLoop_group a b c ha hb hc (standardBase64Chars rest)
      bitBuffer out
    rw [standardBase64Chars, hg, ih (fun x hx => h x (by simp [hx]))]
    simp

/-- C7: for every sequence of bytes, of any length, `base64Decode` applied to its standard
padded Base64 encoding returns the sequence. -/
theorem base64Decode_encode (bytes : List Nat) (h : ∀ x ∈ bytes, x < 256) :
    base64Decode (standardBase64Encode bytes) = .ok bytes := by
  simpa [base64Decode, standardBase64Encode] using base64DecodeLoop_encode bytes h 0 []

/-- C7, at one byte (two `=`), two bytes (one `=`) and three bytes (no padding). -/
theorem base64Decode_encode_witness :
    base64Decode (standardBase64Encode [77]) = .ok [77] ∧
      base64Decode (standardBase64Encode [77, 97]) = .ok [77, 97] ∧
      base64Decode (standardBase64Encode [77, 97, 110]) = .ok [77, 97, 110] :=
  ⟨base64Decode_encode [77] (by decide), base64Decode_encode [77, 97] (by decide),
    base64Decode_encode [77, 97, 110] (by decide)⟩

end Base64

/-! ## Narrowing of results and the session id returned -/

section Narrowing

/-- Narrowing a value that is no string to `std::string` throws type error 302. -/
theorem narrow_getString_of_not_string (r : Except Error Json × State) (v : Json)
    (hr : r.1 = .ok v) (hv : ∀ s, v ≠ .str s) :
    (narrow Json.getString r).1 = .error (.type_error 302) := by
  unfold narrow
  dsimp only
  rw [hr]
  cases v with
  | str s => exact absurd rfl (hv s)
  | _ => rfl

/-- C11: with an active session, each of the ten string-returning methods fails with the
codec's type error 302, returning no value, whenever the unwrapped value of the successful
response is not a JSON string. -/
theorem string_methods_reject_non_string (env : Env) (st : State) (eid name : String)
    (v : Json) (hs : st.sid ≠ "") (hv : ∀ s, v ≠ .str s) :
    ((request env "GET" ("/session/" ++ st.sid ++ "/url") none st).1 = .ok v →
        (getCurrentUrl env st).1 = .error (.type_error 302)) ∧
    ((request env "GET" ("/session/" ++ st.sid ++ "/title") (some (.obj [])) st).1 = .ok v →
        (getTitle env st).1 = .error (.type_error 302)) ∧
    ((request env "GET" ("/session/" ++ st.sid ++ "/window") none st).1 = .ok v →
        (getWindowHandle env st).1 = .error (.type_error 302)) ∧
    ((request env "GET" ("/session/" ++ st.sid ++ "/element/" ++ eid ++ "/attribute/" ++ name)
        none st).1 = .ok v →
        (getElementAttribute env eid name st).1 = .error (.type_error 302)) ∧
    ((request env "GET" ("/session/" ++ st.sid ++ "/element/" ++ eid ++ "/property/" ++ name)
        none st).1 = .ok v →
        (getElementProperty env eid name st).1 = .error (.type_error 302)) ∧
    ((request env "GET" ("/session/" ++ st.sid ++ "/element/" ++ eid ++ "/text") none st).1 =
        .ok v →
        (getElementText env eid st).1 = .error (.type_error 302)) ∧
    ((request env "GET" ("/session/" ++ st.sid ++ "/element/" ++ eid ++ "/name") none st).1 =
        .ok v →
        (getElementTagName env eid st).1 = .error (.type_error 302)) ∧
    ((request env "GET" ("/session/" ++ st.sid ++ "/alert/text") none st).1 = .ok v →
        (getAlertText env st).1 = .error (.type_error 302)) ∧
    ((request env "GET" ("/session/" ++ st.sid ++ "/screenshot") none st).1 = .ok v →
        (takeScreenshot env st).1 = .error (.type_error 302)) ∧
    ((request env "GET" ("/session/" ++ st.sid ++ "/element/" ++ eid ++ "/screenshot") none
        st).1 = .ok v →
        (takeElementScreenshot env eid st).1 = .error (.type_error 302)) := by
  refine ⟨?_, ?_, ?_, ?_, ?_, ?_, ?_, ?_, ?_, ?_⟩
  · intro h; unfold getCurrentUrl; rw [if_neg hs]
    exact narrow_getString_of_not_string _ v h hv
  · intro h; unfold getTitle; rw [if_neg hs]
    exact narrow_getString_of_not_string _ v h hv
  · intro h; unfold getWindowHandle; rw [if_neg hs]
    exact narrow_getString_of_not_string _ v h hv
  · intro h; unfold getElementAttribute; rw [if_neg hs]
    exact narrow_getString_of_not_string _ v h hv
  · intro h; unfold getElementProperty; rw [if_neg hs]
    exact narrow_getString_of_not_string _ v h hv
  · intro h; unfold getElementText; rw [if_neg hs]
    exact narrow_getString_of_not_string _ v h hv
  · intro h; unfold getElementTagName; rw [if_neg hs]
    exact narrow_getString_of_not_string _ v h hv
  · intro h; unfold getAlertText; rw [if_neg hs]
    exact narrow_getString_of_not_string _ v h hv
  · intro h; unfold takeScreenshot; rw [if_neg hs]
    exact narrow_getString_of_not_string _ v h hv
  · intro h; unfold takeElementScreenshot; rw [if_neg hs]
    exact narrow_getString_of_not_string _ v h hv

/-- C11, at a null answer to `getElementAttribute` (a missing attribute) and a numeric
answer to `getTitle`. -/
theorem string_methods_reject_non_string_witness :
    (getElementAttribute (fixedServer 200 "body" (some (.obj [("value", .null)]))) "e1" "href"
        (activeState "s1")).1 = .error (.type_error 302) ∧
      (getTitle (fixedServer 200 "body" (some (.obj [("value", .num 7)])))
        (activeState "s1")).1 = .error (.type_error 302) :=
  ⟨(string_methods_reject_non_string (fixedServer 200 "body" (some (.obj [("value", .null)])))
      (activeState "s1") "e1" "href" .null (by decide) (fun _ h => by cases h)).2.2.2.1 rfl,
    (string_methods_reject_non_string (fixedServer 200 "body" (some (.obj [("value", .num 7)])))
      (activeState "s1") "e1" "href" (.num 7) (by decide) (fun _ h => by cases h)).2.1 rfl⟩

end Narrowing

section SessionId

/-- C12 as stated fails: the server answers POST /session with status 200 and a JSON body,
an object without the two fields, and `createSession` succeeds with the empty id. -/
theorem createSession_empty_id :
    (createSession (fixedServer 200 "body" (some (.obj [("value", .obj [])]))) defaultCaps
        freshState).1 = .ok "" ∧
      (createSession (fixedServer 200 "body" (some (.obj [("value", .obj [])]))) defaultCaps
        freshState).2.sid = "" :=
  ⟨rfl, rfl⟩

/-- C12, amended: whenever `createSession` succeeds, the id it returns is the id it stores,
and it is the string under `sessionId` of the unwrapped object, or, without that field,
the string under `session_id`, or, without both fields, the empty string. -/
theorem createSession_returned_id (env : Env) (caps : Json) (st : State) (s : String)
    (h : (createSession env caps st).1 = .ok s) :
    (createSession env caps st).2.sid = s ∧
      ∃ kvs, (request env "POST" "/session" (some caps) st).1 = .ok (.obj kvs) ∧
        (kvs.lookup "sessionId" = some (.str s) ∨
          (kvs.lookup "sessionId" = none ∧ kvs.lookup "session_id" = some (.str s)) ∨
          (kvs.lookup "sessionId" = none ∧ kvs.lookup "session_id" = none ∧ s = "")) := by
  unfold createSession at h ⊢
  cases hr : request env "POST" "/session" (some caps) st with
  | mk r st1 =>
    rw [hr] at h
    cases r with
    | error e => simp at h
    | ok v =>
      cases v with
      | obj kvs =>
        cases h1 : kvs.lookup "session_id" with
        | none =>
          cases h2 : kvs.lookup "sessionId" with
          | none =>
            simp only [Json.value, h1, h2, Except.ok.injEq] at h ⊢
            subst h
            exact ⟨rfl, kvs, rfl, Or.inr (Or.inr ⟨h2, h1, rfl⟩)⟩
          | some w =>
            cases w <;> simp only [Json.value, Json.getString, h1, h2, Except.ok.injEq,
              reduceCtorEq] at h ⊢
            subst h
            exact ⟨rfl, kvs, rfl, Or.inl h2⟩
        | some u =>
          cases u <;> simp only [Json.value, Json.getString, h1, reduceCtorEq] at h ⊢
          rename_i t
          cases h2 : kvs.lookup "sessionId" with
          | none =>
            simp only [h2, Except.ok.injEq] at h ⊢
            subst h
            exact ⟨rfl, kvs, rfl, Or.inr (Or.inl ⟨h2, h1⟩)⟩
          | some w =>
            cases w <;> simp only [h2, Except.ok.injEq, reduceCtorEq] at h ⊢
            subst h
            exact ⟨rfl, kvs, rfl, Or.inl h2⟩
      | _ => simp [Json.value] at h

/-- C12 amended, at a response with a non-empty `sessionId`. -/
theorem createSession_returned_id_witness :
    (createSession (fixedServer 200 "body" (some (.obj [("value", .obj [("sessionId", .str "abc")])])))
        defaultCaps freshState).2.sid = "abc" :=
  (createSession_returned_id
    (fixedServer 200 "body" (some (.obj [("value", .obj [("sessionId", .str "abc")])])))
    defaultCaps freshState "abc" rfl).1

end SessionId

/-! ## Element lists -/

section Elements

/-- The reading of one entry in the loop of the two plural locate calls. -/
theorem elementIds_step (kvs : List (String × Json)) (s : String)
    (h : kvs.lookup "element-6066-11e4-a52e-4f735466cecf" = some (.str s)) :
    ((Json.obj kvs).atKey elementKey).bind Json.getString = .ok s := by
  simp [Json.atKey, elementKey, h, Except.bind, Json.getString]

/-- The loop over envelopes that all hold a string gives the strings, in order. -/
theorem elementIds_of_envelopes (xs : List Json) (ids : List String)
    (h : List.Forall₂ (fun e s => ∃ kvs, e = Json.obj kvs ∧
      kvs.lookup "element-6066-11e4-a52e-4f735466cecf" = some (.str s)) xs ids) :
    elementIds (.arr xs) = .ok ids := by
  unfold elementIds Json.items
  dsimp only
  induction h with
  | nil => rfl
  | cons hd _ ih =>
    obtain ⟨kvs, rfl, hk⟩ := hd
    rw [List.mapM_cons, elementIds_step kvs _ hk, ih]
    rfl

/-- The loop fails as soon as one entry has no element-reference key. -/
theorem elementIds_of_missing_key (xs : List Json)
    (h : ∃ e ∈ xs, e.contains "element-6066-11e4-a52e-4f735466cecf" = false) :
    ∃ err, elementIds (.arr xs) = .error err := by
  unfold elementIds Json.items
  dsimp only
  induction xs with
  | nil => obtain ⟨e, he, _⟩ := h; cases he
  | cons x rest ih =>
    rw [List.mapM_cons]
    cases hx : (x.atKey elementKey).bind Json.getString with
    | error err => exact ⟨err, rfl⟩
    | ok s =>
      have hrest : ∃ e ∈ rest, e.contains "element-6066-11e4-a52e-4f735466cecf" = false := by
        obtain ⟨e, he, hc⟩ := h
        rcases List.mem_cons.mp he with rfl | he
        · exfalso
          cases e with
          | obj kvs =>
            cases hk : kvs.lookup "element-6066-11e4-a52e-4f735466cecf" with
            | none => simp [Json.atKey, elementKey, hk, Except.bind] at hx
            | some w => simp [Json.contains, hk] at hc
          | _ => simp [Json.atKey, Except.bind] at hx
        · exact ⟨e, he, hc⟩
      obtain ⟨err, herr⟩ := ih hrest
      rw [herr]
      exact ⟨err, rfl⟩

/-- C14: with an active session, when the unwrapped value of a successful response is an
array of envelopes, `findElements` and `findChildElements` return the strings under the
element-reference key of the entries, one per entry and in the order of the array (the
empty list for the empty array); an entry without the key makes the call fail. -/
theorem findElements_unwraps_each (env : Env) (eid using_ value : String) (st : State)
    (xs : List Json) (hs : st.sid ≠ "") :
    ((request env "POST" ("/session/" ++ st.sid ++ "/elements")
        (some (locator using_ value)) st).1 = .ok (.arr xs) →
      (∀ ids, List.Forall₂ (fun e s => ∃ kvs, e = Json.obj kvs ∧
          kvs.lookup "element-6066-11e4-a52e-4f735466cecf" = some (.str s)) xs ids →
        (findElements env using_ value st).1 = .ok ids) ∧
      ((∃ e ∈ xs, e.contains "element-6066-11e4-a52e-4f735466cecf" = false) →
        ∃ err, (findElements env using_ value st).1 = .error err)) ∧
    ((request env "POST" ("/session/" ++ st.sid ++ "/element/" ++ eid ++ "/elements")
        (some (locator using_ value)) st).1 = .ok (.arr xs) →
      (∀ ids, List.Forall₂ (fun e s => ∃ kvs, e = Json.obj kvs ∧
          kvs.lookup "element-6066-11e4-a52e-4f735466cecf" = some (.str s)) xs ids →
        (findChildElements env eid using_ value st).1 = .ok ids) ∧
      ((∃ e ∈ xs, e.contains "element-6066-11e4-a52e-4f735466cecf" = false) →
        ∃ err, (findChildElements env eid using_ value st).1 = .error err)) := by
  constructor
  · intro hreq
    unfold findElements narrow
    rw [if_neg hs]
    dsimp only
    rw [hreq]
    exact ⟨fun ids h => elementIds_of_envelopes xs ids h,
      fun h => elementIds_of_missing_key xs h⟩
  · intro hreq
    unfold findChildElements narrow
    rw [if_neg hs]
    dsimp only
    rw [hreq]
    exact ⟨fun ids h => elementIds_of_envelopes xs ids h,
      fun h => elementIds_of_missing_key xs h⟩

/-- C14, at an array of two envelopes, at the empty array and at an array whose second
entry has no element-reference key. -/
theorem findElements_unwraps_each_witness :
    (findElements (fixedServer 200 "body" (some (.obj [("value", .arr
        [.obj [("element-6066-11e4-a52e-4f735466cecf", .str "e-1")],
          .obj [("element-6066-11e4-a52e-4f735466cecf", .str "e-2")]])])))
        "css selector" "p" (activeState "s1")).1 = .ok ["e-1", "e-2"] ∧
      (findChildElements (fixedServer 200 "body" (some (.obj [("value", .arr [])])))
        "e-0" "css selector" "p" (activeState "s1")).1 = .ok [] ∧
      ∃ err, (findElements (fixedServer 200 "body" (some (.obj [("value", .arr
        [.obj [("element-6066-11e4-a52e-4f735466cecf", .str "e-1")], .obj []])])))
        "css selector" "p" (activeState "s1")).1 = .error err :=
  ⟨((findElements_unwraps_each (fixedServer 200 "body" (some (.obj [("value", .arr
        [.obj [("element-6066-11e4-a52e-4f735466cecf", .str "e-1")],
          .obj [("element-6066-11e4-a52e-4f735466cecf", .str "e-2")]])])))
      "e-0" "css selector" "p" (activeState "s1")
      [.obj [("element-6066-11e4-a52e-4f735466cecf", .str "e-1")],
        .obj [("element-6066-11e4-a52e-4f735466cecf", .str "e-2")]] (by decide)).1 rfl).1
      ["e-1", "e-2"] (.cons ⟨_, rfl, rfl⟩ (.cons ⟨_, rfl, rfl⟩ .nil)),
    ((findElements_unwraps_each (fixedServer 200 "body" (some (.obj [("value", .arr [])])))
      "e-0" "css selector" "p" (activeState "s1") [] (by decide)).2 rfl).1 [] .nil,
    ((findElements_unwraps_each (fixedServer 200 "body" (some (.obj [("value", .arr
        [.obj [("element-6066-11e4-a52e-4f735466cecf", .str "e-1")], .obj []])])))
      "e-0" "css selector" "p" (activeState "s1")
      [.obj [("element-6066-11e4-a52e-4f735466cecf", .str "e-1")], .obj []] (by decide)).1 rfl).2
      ⟨.obj [], by simp, rfl⟩⟩

end Elements

/-! ## Request bodies and the delete call -/

section Bodies

/-- With an active session, a guarded method that drops the value sends what `request`
sends. -/
theorem request_sent_of_method (env : Env) (method path : String) (payload : Option Json)
    (st : State) (m : Method) (hm : toMethod method = some m) :
    (request env method path payload st).2.sent = st.sent ++ [mkRequest env m path payload] := by
  rw [request_of_method env method path payload st m hm]
  split
  · rfl
  · split
    · rfl
    · split <;> rfl

/-- C15 as stated fails for null, the default argument: the body sent is the dump of the
value-initialised `json{}`, which is null, not the dump of a map binding `id`. -/
theorem switchFrame_null_body :
    (switchFrame (shapeServer 200 "body" (some .null)) .null (activeState "s1")).2.sent =
        [Request.mk Method.POST "http://localhost:4444/session/s1/frame"
          ["Content-Type: application/json"] (some "null")] ∧
      (some "null" : Option String) ≠
        some ((shapeServer 200 "body" (some .null)).dump (.obj [("id", .null)])) :=
  ⟨rfl, by decide⟩

/-- C15, amended: with an active session, for every frame id other than null `switchFrame`
sends one POST to `/session/{sid}/frame` whose body is the dump of the map binding `id` to
that value. -/
theorem switchFrame_body (env : Env) (id : Json) (st : State) (hs : st.sid ≠ "")
    (hid : id ≠ .null) :
    (switchFrame env id st).2.sent = st.sent ++
      [Request.mk Method.POST (env.baseUrl ++ ("/session/" ++ st.sid ++ "/frame"))
        ["Content-Type: application/json"] (some (env.dump (.obj [("id", id)])))] := by
  have hbody : (if id.isNull then Json.null else Json.obj [("id", id)]) = .obj [("id", id)] := by
    cases id with
    | null => exact absurd rfl hid
    | _ => rfl
  unfold switchFrame discard
  rw [if_neg hs, hbody]
  exact request_sent_of_method env "POST" _ _ st Method.POST rfl

/-- C15 amended, at the frame id 0 and at an element-reference map. -/
theorem switchFrame_body_witness :
    (switchFrame (shapeServer 200 "body" (some .null)) (.num 0) (activeState "s1")).2.sent =
        (activeState "s1").sent ++
          [Request.mk Method.POST ((shapeServer 200 "body" (some .null)).baseUrl ++
              ("/session/" ++ (activeState "s1").sid ++ "/frame"))
            ["Content-Type: application/json"]
            (some ((shapeServer 200 "body" (some .null)).dump (.obj [("id", .num 0)])))] ∧
      (switchFrame (fixedServer 200 "body" (some .null))
        (.obj [("element-6066-11e4-a52e-4f735466cecf", .str "e-7")]) (activeState "s1")).2.sent =
        (activeState "s1").sent ++
          [Request.mk Method.POST ((fixedServer 200 "body" (some .null)).baseUrl ++
              ("/session/" ++ (activeState "s1").sid ++ "/frame"))
            ["Content-Type: application/json"]
            (some ((fixedServer 200 "body" (some .null)).dump
              (.obj [("id", .obj [("element-6066-11e4-a52e-4f735466cecf", .str "e-7")])])))] :=
  ⟨switchFrame_body (shapeServer 200 "body" (some .null)) (.num 0) (activeState "s1")
      (by decide) (fun h => by cases h),
    switchFrame_body (fixedServer 200 "body" (some .null))
      (.obj [("element-6066-11e4-a52e-4f735466cecf", .str "e-7")]) (activeState "s1")
      (by decide) (fun h => by cases h)⟩

/-- C16: without a session `deleteSession` throws before anything is sent; with the session
id `s` it hands the transport exactly one request, a DELETE to the base URL followed by
"/session/" and `s`, without a body. -/
theorem deleteSession_guard_and_request (env : Env) (st : State) :
    (st.sid = "" →
      deleteSession env st = (.error (.runtime_error "No active session to delete"), st)) ∧
    (st.sid ≠ "" →
      (deleteSession env st).2.sent = st.sent ++
        [Request.mk Method.DEL (env.baseUrl ++ ("/session/" ++ st.sid))
          ["Content-Type: application/json"] none]) := by
  constructor
  · intro h
    unfold deleteSession
    rw [if_pos h]
  · intro h
    have hsent := request_sent_of_method env "DELETE" ("/session/" ++ st.sid) none st
      Method.DEL rfl
    unfold deleteSession
    rw [if_neg h]
    cases hr : request env "DELETE" ("/session/" ++ st.sid) none st with
    | mk r st1 =>
      rw [hr] at hsent
      cases r with
      | error e => exact hsent
      | ok v => exact hsent

/-- C16, at a fresh client and at a client holding the id "s1". -/
theorem deleteSession_guard_and_request_witness :
    deleteSession (fixedServer 200 "body" (some .null)) freshState =
        (.error (.runtime_error "No active session to delete"), freshState) ∧
      (deleteSession (fixedServer 200 "body" (some .null)) (activeState "s1")).2.sent =
        [Request.mk Method.DEL "http://localhost:4444/session/s1"
          ["Content-Type: application/json"] none] :=
  ⟨(deleteSession_guard_and_request (fixedServer 200 "body" (some .null)) freshState).1 rfl,
    (deleteSession_guard_and_request (fixedServer 200 "body" (some .null))
      (activeState "s1")).2 (by decide)⟩

end Bodies

/-! ## Classes of errors -/

section Kinds

/-- A text that starts with "HTTP " is neither of the two texts of the session guard. -/
theorem http_text_ne_guard_text (rest : String) :
    "HTTP " ++ rest ≠ "Session not created" ∧ "HTTP " ++ rest ≠ "No active session to delete" := by
  constructor <;> intro h <;> have h2 := congrArg String.data h <;>
    simp [String.data_append] at h2

/-- The error of `request` for a status outside [200, 300). -/
theorem request_of_bad_status (env : Env) (method path : String) (payload : Option Json)
    (st : State) (m : Method) (hm : toMethod method = some m)
    (hcode : (env.send st.sent (mkRequest env m path payload)).httpCode < 200 ∨
      300 ≤ (env.send st.sent (mkRequest env m path payload)).httpCode) :
    (request env method path payload st).1 = .error (.runtime_error
      ("HTTP " ++ toString (env.send st.sent (mkRequest env m path payload)).httpCode ++
        " error on " ++ method ++ " " ++ path ++ ": " ++
        (env.send st.sent (mkRequest env m path payload)).body)) := by
  rw [request_of_method env method path payload st m hm, if_pos (by omega)]

/-- Every guarded call made without a session throws one of the two guard errors. -/
theorem guarded_call_error (env : Env) (c : Call) (st : State)
    (hc : c.isGuarded = true) (hs : st.sid = "") :
    (runCall env c st).1 = .error (.runtime_error "Session not created") ∨
      (runCall env c st).1 = .error (.runtime_error "No active session to delete") := by
  cases c <;> simp only [Call.isGuarded, Bool.false_eq_true] at hc <;>
    first
    | (left
       simp [runCall, tag, Except.map, navigateTo, getCurrentUrl, back, forward, refresh,
          getTitle, setTimeouts, getTimeouts, getWindowHandle, getWindowHandles, closeWindow,
          switchWindow, getWindowRect, setWindowRect, maximizeWindow, minimizeWindow,
          fullscreenWindow, switchFrame, switchToParentFrame, findElement, findElements,
          findChildElement, findChildElements, getElementAttribute, getElementProperty,
          getElementText, getElementTagName, isElementSelected, isElementEnabled,
          getElementRect, clickElement, clearElement, sendKeys, executeScript,
          executeAsyncScript, getAllCookies, getCookie, addCookie, deleteCookie,
          deleteAllCookies, acceptAlert, dismissAlert, getAlertText, setAlertText,
          takeScreenshot, takeElementScreenshot, printPage, performActions, hs]
       done)
    | (right
       simp [runCall, tag, Except.map, deleteSession, hs])

/-- C17 as stated fails: the guard of `navigateTo` throws a `std::runtime_error`, the class
of the error for status 404, while the error for the method "PUT" is a
`std::logic_error`. -/
theorem guard_error_class_is_status_error_class :
    (navigateTo (fixedServer 200 "body" (some .null)) "https://example.com" freshState).1 =
        .error (.runtime_error "Session not created") ∧
      (request (fixedServer 200 "body" (some .null)) "PUT" "/status" none freshState).1 =
        .error (.logic_error "Unsupported HTTP method") ∧
      (request (fixedServer 404 "not found" none) "GET" "/status" none freshState).1 =
        .error (.runtime_error "HTTP 404 error on GET /status: not found") ∧
      (Error.runtime_error "Session not created").className ≠
        (Error.logic_error "Unsupported HTTP method").className ∧
      (Error.runtime_error "Session not created").className =
        (Error.runtime_error "HTTP 404 error on GET /status: not found").className :=
  ⟨rfl, rfl, rfl, by decide, rfl⟩

/-- C17, amended: a session guard and a status outside [200, 300) both raise a
`std::runtime_error`, and an unsupported method raises a `std::logic_error`, another class;
the guard error and the status error differ in their text only, the first being
"Session not created" or "No active session to delete" and the second starting with
"HTTP ". -/
theorem error_classes_of_failures (env : Env) (c : Call) (st st2 : State)
    (method path : String) (payload : Option Json) :
    (c.isGuarded = true → st.sid = "" →
      ∃ e, (runCall env c st).1 = .error e ∧ e.className = "std::runtime_error" ∧
        (e = .runtime_error "Session not created" ∨
          e = .runtime_error "No active session to delete")) ∧
    (method ≠ "GET" → method ≠ "POST" → method ≠ "DELETE" →
      ∃ e, (request env method path payload st2).1 = .error e ∧
        e.className = "std::logic_error") ∧
    (∀ m, toMethod method = some m →
      (env.send st2.sent (mkRequest env m path payload)).httpCode < 200 ∨
        300 ≤ (env.send st2.sent (mkRequest env m path payload)).httpCode →
      ∃ e, (request env method path payload st2).1 = .error e ∧
        e.className = "std::runtime_error" ∧
        e ≠ .runtime_error "Session not created" ∧
        e ≠ .runtime_error "No active session to delete") := by
  refine ⟨?_, ?_, ?_⟩
  · intro hc hs
    rcases guarded_call_error env c st hc hs with h | h
    · exact ⟨_, h, rfl, Or.inl rfl⟩
    · exact ⟨_, h, rfl, Or.inr rfl⟩
  · intro h1 h2 h3
    refine ⟨.logic_error "Unsupported HTTP method", ?_, rfl⟩
    simp [request, toMethod, h1, h2, h3]
  · intro m hm hcode
    refine ⟨_, request_of_bad_status env method path payload st2 m hm hcode, rfl, ?_, ?_⟩
    all_goals
      intro h
      injection h with h
      simp only [String.append_assoc] at h
    · exact (http_text_ne_guard_text _).1 h
    · exact (http_text_ne_guard_text _).2 h

/-- C17 amended, at the guard of `navigateTo` and at the method "PUT". -/
theorem error_classes_of_failures_witness :
    (∃ e, (runCall (fixedServer 200 "body" (some .null)) (.navigateTo "https://example.com")
        freshState).1 = .error e ∧ e.className = "std::runtime_error" ∧
        (e = .runtime_error "Session not created" ∨
          e = .runtime_error "No active session to delete")) ∧
      ∃ e, (request (fixedServer 200 "body" (some .null)) "PUT" "/status" none freshState).1 =
        .error e ∧ e.className = "std::logic_error" :=
  ⟨(error_classes_of_failures (fixedServer 200 "body" (some .null))
      (.navigateTo "https://example.com") freshState freshState "PUT" "/status" none).1 rfl rfl,
    (error_classes_of_failures (fixedServer 200 "body" (some .null))
      (.navigateTo "https://example.com") freshState freshState "PUT" "/status" none).2.1
      (by decide) (by decide) (by decide)⟩

end Kinds

/-! ## Structured results and printing -/

section Structured

/-- What `request` returns for a 2xx response whose body parses to an object holding `x`
under `value`. -/
theorem request_of_value (env : Env) (method path : String) (payload : Option Json)
    (st : State) (m : Method) (x : Json) (rest : List (String × Json))
    (hm : toMethod method = some m)
    (hlo : 200 ≤ (env.send st.sent (mkRequest env m path payload)).httpCode)
    (hhi : (env.send st.sent (mkRequest env m path payload)).httpCode < 300)
    (hparse : env.parse (env.send st.sent (mkRequest env m path payload)).body =
      some (.obj (("value", x) :: rest))) :
    (request env method path payload st).1 = .ok x := by
  rw [request_of_method env method path payload st m hm, if_neg (by omega), hparse]
  simp [Json.contains, Json.index, List.lookup]

/-- C18: with an active session (none is needed for `getStatus`), each of the seven methods
with a structured return is the call of `request` itself, result and state: nothing is
done to the unwrapped value. So a 2xx response whose body is an object holding `x` under
`value` makes `executeScript` and `getCookie` return `x` whole, also when `x` is a number
or is itself an object with a field `value`. -/
theorem structured_methods_return_unwrapped (env : Env) (st : State)
    (script name eid : String) (args x : Json) (hs : st.sid ≠ "") :
    executeScript env script args st =
        request env "POST" ("/session/" ++ st.sid ++ "/execute/sync")
          (some (.obj [("script", .str script), ("args", args)])) st ∧
    executeAsyncScript env script args st =
        request env "POST" ("/session/" ++ st.sid ++ "/execute/async")
          (some (.obj [("script", .str script), ("args", args)])) st ∧
    getCookie env name st = request env "GET" ("/session/" ++ st.sid ++ "/cookie/" ++ name)
        none st ∧
    getTimeouts env st = request env "GET" ("/session/" ++ st.sid ++ "/timeouts") none st ∧
    getWindowRect env st = request env "GET" ("/session/" ++ st.sid ++ "/window/rect") none st ∧
    getElementRect env eid st =
        request env "GET" ("/session/" ++ st.sid ++ "/element/" ++ eid ++ "/rect") none st ∧
    getStatus env st = request env "GET" "/status" none st ∧
    (200 ≤ (env.send st.sent (mkRequest env Method.POST
          ("/session/" ++ st.sid ++ "/execute/sync")
          (some (.obj [("script", .str script), ("args", args)])))).httpCode →
      (env.send st.sent (mkRequest env Method.POST
          ("/session/" ++ st.sid ++ "/execute/sync")
          (some (.obj [("script", .str script), ("args", args)])))).httpCode < 300 →
      env.parse (env.send st.sent (mkRequest env Method.POST
          ("/session/" ++ st.sid ++ "/execute/sync")
          (some (.obj [("script", .str script), ("args", args)])))).body =
        some (.obj [("value", x)]) →
      (executeScript env script args st).1 = .ok x) ∧
    (200 ≤ (env.send st.sent (mkRequest env Method.GET
          ("/session/" ++ st.sid ++ "/cookie/" ++ name) none)).httpCode →
      (env.send st.sent (mkRequest env Method.GET
          ("/session/" ++ st.sid ++ "/cookie/" ++ name) none)).httpCode < 300 →
      env.parse (env.send st.sent (mkRequest env Method.GET
          ("/session/" ++ st.sid ++ "/cookie/" ++ name) none)).body =
        some (.obj [("value", x)]) →
      (getCookie env name st).1 = .ok x) := by
  refine ⟨?_, ?_, ?_, ?_, ?_, ?_, rfl, ?_, ?_⟩
  · unfold executeScript; rw [if_neg hs]
  · unfold executeAsyncScript; rw [if_neg hs]
  · unfold getCookie; rw [if_neg hs]
  · unfold getTimeouts; rw [if_neg hs]
  · unfold getWindowRect; rw [if_neg hs]
  · unfold getElementRect; rw [if_neg hs]
  · intro hlo hhi hp
    unfold executeScript; rw [if_neg hs]
    exact request_of_value env "POST" _ _ st Method.POST x [] rfl hlo hhi hp
  · intro hlo hhi hp
    unfold getCookie; rw [if_neg hs]
    exact request_of_value env "GET" _ _ st Method.GET x [] rfl hlo hhi hp

/-- C18, at the number 2 returned by a script and at a cookie object with the fields
`name` and `value`. -/
theorem structured_methods_return_unwrapped_witness :
    (executeScript (fixedServer 200 "body" (some (.obj [("value", .num 2)]))) "return 1+1;"
        (.arr []) (activeState "s1")).1 = .ok (.num 2) ∧
      (getCookie (fixedServer 200 "body" (some (.obj [("value",
        .obj [("name", .str "test_cookie"), ("value", .str "cookie_value")])])))
        "test_cookie" (activeState "s1")).1 =
        .ok (.obj [("name", .str "test_cookie"), ("value", .str "cookie_value")]) :=
  ⟨(structured_methods_return_unwrapped (fixedServer 200 "body" (some (.obj [("value", .num 2)])))
      (activeState "s1") "return 1+1;" "test_cookie" "e1" (.arr []) (.num 2)
      (by decide)).2.2.2.2.2.2.2.1 (by decide) (by decide) rfl,
    (structured_methods_return_unwrapped (fixedServer 200 "body" (some (.obj [("value",
        .obj [("name", .str "test_cookie"), ("value", .str "cookie_value")])])))
      (activeState "s1") "return 1+1;" "test_cookie" "e1" (.arr [])
      (.obj [("name", .str "test_cookie"), ("value", .str "cookie_value")])
      (by decide)).2.2.2.2.2.2.2.2 (by decide) (by decide) rfl⟩

/-- C19 as stated fails: the body `printPage` sends is the dump of a map with the one key
`printOptions`, not the dump of the print-options map it was given. -/
theorem printPage_wraps_options :
    (printPage (shapeServer 200 "body" (some (.obj [("value", .str "JVBERi0=")])))
        (.obj [("landscape", .bool false)]) (activeState "s1")).2.sent =
        [Request.mk Method.POST "http://localhost:4444/session/s1/print"
          ["Content-Type: application/json"] (some "object with keys printOptions")] ∧
      (shapeServer 200 "body" (some (.obj [("value", .str "JVBERi0=")]))).dump
        (.obj [("landscape", .bool false)]) = "object with keys landscape" ∧
      (some "object with keys printOptions" : Option String) ≠
        some "object with keys landscape" :=
  ⟨rfl, rfl, by decide⟩

/-- C19, amended: with an active session, `printPage` sends one POST to
`/session/{sid}/print` whose body is the dump of the map binding the key `printOptions` to
the print-options value, and it returns what `request` returns, the unwrapped `value` of
the response. -/
theorem printPage_request (env : Env) (printOptions : Json) (st : State)
    (hs : st.sid ≠ "") :
    (printPage env printOptions st).2.sent = st.sent ++
        [Request.mk Method.POST (env.baseUrl ++ ("/session/" ++ st.sid ++ "/print"))
          ["Content-Type: application/json"]
          (some (env.dump (.obj [("printOptions", printOptions)])))] ∧
    printPage env printOptions st =
        request env "POST" ("/session/" ++ st.sid ++ "/print")
          (some (.obj [("printOptions", printOptions)])) st ∧
    (∀ x, 200 ≤ (env.send st.sent (mkRequest env Method.POST
          ("/session/" ++ st.sid ++ "/print")
          (some (.obj [("printOptions", printOptions)])))).httpCode →
      (env.send st.sent (mkRequest env Method.POST
          ("/session/" ++ st.sid ++ "/print")
          (some (.obj [("printOptions", printOptions)])))).httpCode < 300 →
      env.parse (env.send st.sent (mkRequest env Method.POST
          ("/session/" ++ st.sid ++ "/print")
          (some (.obj [("printOptions", printOptions)])))).body =
        some (.obj [("value", x)]) →
      (printPage env printOptions st).1 = .ok x) := by
  have heq : printPage env printOptions st =
      request env "POST" ("/session/" ++ st.sid ++ "/print")
        (some (.obj [("printOptions", printOptions)])) st := by
    unfold printPage; rw [if_neg hs]
  refine ⟨?_, heq, ?_⟩
  · rw [heq]
    exact request_sent_of_method env "POST" _ _ st Method.POST rfl
  · intro x hlo hhi hp
    rw [heq]
    exact request_of_value env "POST" _ _ st Method.POST x [] rfl hlo hhi hp

/-- C19 amended, at a landscape option and a server answering with base64 text. -/
theorem printPage_request_witness :
    (printPage (shapeServer 200 "body" (some (.obj [("value", .str "JVBERi0=")])))
        (.obj [("landscape", .bool false)]) (activeState "s1")).1 = .ok (.str "JVBERi0=") :=
  (printPage_request (shapeServer 200 "body" (some (.obj [("value", .str "JVBERi0=")])))
    (.obj [("landscape", .bool false)]) (activeState "s1") (by decide)).2.2 (.str "JVBERi0=")
    (by decide) (by decide) rfl

end Structured

/-! ## Failure of the Base64 decoder -/

section Base64Failure

open detail

/-- Outside the alphabet and the padding character, `base64Value` throws. -/
theorem base64Value_of_not_alphabet (c : Char) (hpad : c ≠ '=')
    (h : isAlphabetChar c = false) :
    base64Value c = .error (.invalid_argument "Invalid Base64 character") := by
  simp only [isAlphabetChar, decide_eq_false_iff_not, not_or] at h
  obtain ⟨h1, h2, h3, h4, h5⟩ := h
  simp [base64Value, h1, h2, h3, h4, h5, hpad]

/-- Inside the alphabet, `base64Value` returns a value. -/
theorem base64Value_of_alphabet (c : Char) (h : isAlphabetChar c = true) :
    ∃ val, base64Value c = .ok val := by
  unfold base64Value
  split
  · exact ⟨_, rfl⟩
  · split
    · exact ⟨_, rfl⟩
    · split
      · exact ⟨_, rfl⟩
      · split
        · exact ⟨_, rfl⟩
        · split
          · exact ⟨_, rfl⟩
          · simp only [isAlphabetChar, decide_eq_true_eq] at h
            rcases h with h | h | h | h | h <;> contradiction

/-- The loop returns when every character before the first `=` is in the alphabet. -/
theorem base64DecodeLoop_ok (norm : Nat → Nat) (cs : List Char) :
    (∀ c ∈ cs.takeWhile (fun c => c ≠ '='), isAlphabetChar c = true) →
      ∀ (bitBuffer bitCount : Nat) (out : List Nat),
        ∃ bytes, base64DecodeLoop norm cs bitBuffer bitCount out = .ok bytes := by
  induction cs with
  | nil => intro _ _ _ out; exact ⟨out, rfl⟩
  | cons c rest ih =>
    intro h bitBuffer bitCount out
    rw [base64DecodeLoop]
    by_cases hpad : c = '='
    · rw [if_pos hpad]; exact ⟨out, rfl⟩
    · rw [if_neg hpad]
      have htw : (c :: rest).takeWhile (fun c => c ≠ '=') =
          c :: rest.takeWhile (fun c => c ≠ '=') :=
        List.takeWhile_cons_of_pos (by simpa using hpad)
      rw [htw] at h
      have hc : isAlphabetChar c = true := h c (List.mem_cons_self _ _)
      have hrest : ∀ d ∈ rest.takeWhile (fun c => c ≠ '='), isAlphabetChar d = true :=
        fun d hd => h d (List.mem_cons_of_mem _ hd)
      obtain ⟨val, hval⟩ := base64Value_of_alphabet c hc
      rw [hval]
      dsimp only
      split
      · exact ih hrest _ _ _
      · split
        · exact ih hrest _ _ _
        · exact ih hrest _ _ _

/-- The loop throws when a character before the first `=` is outside the alphabet. -/
theorem base64DecodeLoop_error (norm : Nat → Nat) (cs : List Char) :
    (∃ c ∈ cs.takeWhile (fun c => c ≠ '='), isAlphabetChar c = false) →
      ∀ (bitBuffer bitCount : Nat) (out : List Nat),
        base64DecodeLoop norm cs bitBuffer bitCount out =
          .error (.invalid_argument "Invalid Base64 character") := by
  induction cs with
  | nil => intro h; obtain ⟨c, hc, _⟩ := h; simp at hc
  | cons c rest ih =>
    intro h bitBuffer bitCount out
    rw [base64DecodeLoop]
    by_cases hpad : c = '='
    · obtain ⟨d, hd, _⟩ := h
      rw [List.takeWhile_cons_of_neg (by simpa using hpad)] at hd
      cases hd
    · rw [if_neg hpad]
      have htw : (c :: rest).takeWhile (fun c => c ≠ '=') =
          c :: rest.takeWhile (fun c => c ≠ '=') :=
        List.takeWhile_cons_of_pos (by simpa using hpad)
      rw [htw] at h
      by_cases hc : isAlphabetChar c = true
      · have hrest : ∃ d ∈ rest.takeWhile (fun c => c ≠ '='), isAlphabetChar d = false := by
          obtain ⟨d, hd, hbad⟩ := h
          rcases List.mem_cons.mp hd with rfl | hd
          · rw [hc] at hbad; cases hbad
          · exact ⟨d, hd, hbad⟩
        obtain ⟨val, hval⟩ := base64Value_of_alphabet c hc
        rw [hval]
        dsimp only
        split
        · exact ih hrest _ _ _
        · split
          · exact ih hrest _ _ _
          · exact ih hrest _ _ _
      · rw [base64Value_of_not_alphabet c hpad (by simpa using hc)]

/-- C20: `base64Decode` throws the invalid-character error exactly when a character before
the first `=` of the input is outside A-Z, a-z, 0-9, `+` and `/`; on every other input it
returns a byte sequence. -/
theorem base64Decode_fails_iff (input : String) :
    (base64Decode input = .error (.invalid_argument "Invalid Base64 character") ↔
      ∃ c ∈ input.toList.takeWhile (fun c => c ≠ '='), isAlphabetChar c = false) ∧
    ((¬ ∃ c ∈ input.toList.takeWhile (fun c => c ≠ '='), isAlphabetChar c = false) →
      ∃ bytes, base64Decode input = .ok bytes) := by
  have hgood : (¬ ∃ c ∈ input.toList.takeWhile (fun c => c ≠ '='), isAlphabetChar c = false) →
      ∃ bytes, base64Decode input = .ok bytes := by
    intro h
    apply base64DecodeLoop_ok
    intro c hc
    by_contra hbad
    exact h ⟨c, hc, by simpa using hbad⟩
  refine ⟨⟨?_, ?_⟩, hgood⟩
  · intro herr
    by_contra h
    obtain ⟨bytes, hok⟩ := hgood h
    rw [hok] at herr
    cases herr
  · intro h
    exact base64DecodeLoop_error wrap32 input.toList h 0 0 []

end Base64Failure

/-! ## The session-id invariant -/

section Invariant

theorem sessionTrace_refl (env : Env) (st : State) : SessionTrace env st st :=
  ⟨rfl, [], by simp, by simp⟩

theorem sessionTrace_trans (env : Env) (st st1 st2 : State)
    (h1 : SessionTrace env st st1) (h2 : SessionTrace env st1 st2) :
    SessionTrace env st st2 := by
  obtain ⟨hs1, new1, hn1, hp1⟩ := h1
  obtain ⟨hs2, new2, hn2, hp2⟩ := h2
  refine ⟨hs2.trans hs1, new1 ++ new2, by rw [hn2, hn1, List.append_assoc], ?_⟩
  intro req hreq
  rcases List.mem_append.mp hreq with h | h
  · exact hp1 req h
  · rw [← hs1]; exact hp2 req h

/-- A string whose characters start with those of `p` is `p` followed by a rest. -/
theorem exists_rest_of_prefix (p path : String) (h : p.data <+: path.data) :
    ∃ rest, path = p ++ rest := by
  obtain ⟨t, ht⟩ := h
  refine ⟨String.mk t, ?_⟩
  apply String.ext
  rw [String.data_append, ← ht]

theorem sessionTrace_request (env : Env) (method path : String) (payload : Option Json)
    (st : State)
    (hpath : path = "/status" ∨ ("/session/" ++ st.sid).data <+: path.data) :
    SessionTrace env st (request env method path payload st).2 := by
  have hurl : ∀ m, (mkRequest env m path payload).url = env.baseUrl ++ "/status" ∨
      ∃ rest, (mkRequest env m path payload).url =
        env.baseUrl ++ ("/session/" ++ st.sid ++ rest) := by
    intro m
    rcases hpath with h | h
    · left; rw [h]; rfl
    · right
      obtain ⟨rest, hrest⟩ := exists_rest_of_prefix _ _ h
      exact ⟨rest, by rw [← hrest]; rfl⟩
  unfold request
  split
  · exact sessionTrace_refl env st
  · rename_i m _
    have hstep : SessionTrace env st
        (State.mk st.sid (st.sent ++ [mkRequest env m path payload]) st.waits) :=
      ⟨rfl, [mkRequest env m path payload], rfl, by
        intro req hreq
        rw [List.mem_singleton.mp hreq]
        exact hurl m⟩
    dsimp only
    split
    · exact hstep
    · split
      · exact hstep
      · split <;> exact hstep

theorem sessionTrace_sendKeys (env : Env) (eid text : String) (st : State) :
    SessionTrace env st (sendKeys env eid text st).2 := by
  unfold sendKeys discard
  split
  · exact sessionTrace_refl env st
  · exact sessionTrace_request env _ _ _ st (Or.inr (by simp [String.data_append]))

/-- One call of the loop keeps the session id and sends under the session path only. -/
theorem sessionTrace_sendKeysByte (env : Env) (eid : String) (b : Nat) (st : State) :
    SessionTrace env st (sendKeysByte env eid b st).2 := by
  unfold sendKeysByte
  split
  · exact sessionTrace_sendKeys env eid _ st
  · split <;> exact sessionTrace_refl env st

theorem sessionTrace_sendKeysSlowlyLoop (env : Env) (eid : String) (baseDelayMs : Nat)
    (dist : Nat → Int) (cs : List Nat) :
    ∀ (i : Nat) (st : State),
      SessionTrace env st (sendKeysSlowlyLoop env eid baseDelayMs dist cs i st).2 := by
  induction cs with
  | nil => intro i st; exact sessionTrace_refl env st
  | cons c rest ih =>
    intro i st
    have hk := sessionTrace_sendKeysByte env eid c st
    rw [sendKeysSlowlyLoop]
    cases hr : sendKeysByte env eid c st with
    | mk r st1 =>
      rw [hr] at hk
      cases r with
      | error e => exact hk
      | ok u =>
        dsimp only
        refine sessionTrace_trans env st st1 _ hk ?_
        have hw : SessionTrace env st1 (waitMS (slowDelay baseDelayMs (dist i)) st1).2 :=
          ⟨rfl, [], by simp [waitMS], by simp⟩
        exact sessionTrace_trans env st1 _ _ hw (ih (i + 1) _)

/-- One call other than `createSession` and `deleteSession` keeps the session id and sends
only to "/status" or under "/session/" followed by the id. -/
theorem sessionTrace_runCall (env : Env) (c : Call) (st : State)
    (hc : (∀ caps, c ≠ Call.createSession caps) ∧ c ≠ Call.deleteSession) :
    SessionTrace env st (runCall env c st).2 := by
  cases c with
  | createSession caps => exact absurd rfl (hc.1 caps)
  | deleteSession => exact absurd rfl hc.2
  | waitMS ms => exact ⟨rfl, [], by simp [runCall, tag, waitMS], by simp⟩
  | sendKeysSlowly eid text baseDelayMs dist =>
    exact sessionTrace_sendKeysSlowlyLoop env eid baseDelayMs dist (stringBytes text) 0 st
  | sendKeys eid text => exact sessionTrace_sendKeys env eid text st
  | getStatus => exact sessionTrace_request env _ _ _ st (Or.inl rfl)
  | setFile elementId filePaths =>
    exact sessionTrace_request env _ _ _ st (Or.inr (by simp [String.data_append]))
  | _ =>
    simp only [runCall, tag, navigateTo, getCurrentUrl, back, forward, refresh,
      getTitle, setTimeouts, getTimeouts, getWindowHandle, getWindowHandles, closeWindow,
      switchWindow, getWindowRect, setWindowRect, maximizeWindow, minimizeWindow,
      fullscreenWindow, switchFrame, switchToParentFrame, findElement, findElements,
      findChildElement, findChildElements, getElementAttribute, getElementProperty,
      getElementText, getElementTagName, isElementSelected, isElementEnabled,
      getElementRect, clickElement, clearElement, executeScript,
      executeAsyncScript, getAllCookies, getCookie, addCookie, deleteCookie,
      deleteAllCookies, acceptAlert, dismissAlert, getAlertText, setAlertText,
      takeScreenshot, takeElementScreenshot, printPage, performActions, discard, narrow]
    split
    · exact sessionTrace_refl env st
    · exact sessionTrace_request env _ _ _ st (Or.inr (by simp [String.data_append]))

theorem sessionTrace_runCalls (env : Env) (calls : List Call) :
    (∀ c ∈ calls, (∀ caps, c ≠ Call.createSession caps) ∧ c ≠ Call.deleteSession) →
      ∀ st, SessionTrace env st (runCalls env calls st) := by
  induction calls with
  | nil => intro _ st; exact sessionTrace_refl env st
  | cons c rest ih =>
    intro h st
    rw [runCalls]
    exact sessionTrace_trans env st _ _
      (sessionTrace_runCall env c st (h c (List.mem_cons_self _ _)))
      (ih (fun d hd => h d (List.mem_cons_of_mem _ hd)) _)

/-- C13 as stated fails for `getStatus`: with the id "s1" stored, its request goes to
"/status", which is not the base URL followed by "/session/", the id and a rest. -/
theorem getStatus_path_outside_session :
    (runCalls (fixedServer 200 "body" (some .null)) [Call.getStatus] (activeState "s1")).sent =
        [Request.mk Method.GET "http://localhost:4444/status"
          ["Content-Type: application/json"] none] ∧
      ¬ ∃ rest, "http://localhost:4444/status" =
        "http://localhost:4444" ++ ("/session/" ++ "s1" ++ rest) := by
  refine ⟨rfl, ?_⟩
  rintro ⟨rest, h⟩
  have h2 := congrArg String.data h
  simp [String.data_append] at h2

/-- C13, amended: after any sequence of calls of public methods other than `createSession`
and `deleteSession`, each succeeding or failing, the stored session id is what it was, and
every request the calls sent goes either to "/status" (the request of `getStatus`) or to a
path that starts with "/session/" followed by the stored id. -/
theorem session_id_invariant (env : Env) (calls : List Call) (st : State)
    (h : ∀ c ∈ calls, (∀ caps, c ≠ Call.createSession caps) ∧ c ≠ Call.deleteSession) :
    (runCalls env calls st).sid = st.sid ∧
      ∃ new, (runCalls env calls st).sent = st.sent ++ new ∧
        ∀ req ∈ new, req.url = env.baseUrl ++ "/status" ∨
          ∃ rest, req.url = env.baseUrl ++ ("/session/" ++ st.sid ++ rest) :=
  sessionTrace_runCalls env calls h st

/-- C13 amended, at a sequence with a failing call, `getStatus`, slow typing and `setFile`. -/
theorem session_id_invariant_witness :
    (runCalls (fixedServer 404 "no such element" none)
      [.findElement "css selector" "h1", .getStatus, .sendKeysSlowly "e1" "ab" 100 (fun _ => 0),
        .setFile "e1" ["/tmp/a.txt"]] (activeState "s1")).sid = (activeState "s1").sid :=
  (session_id_invariant (fixedServer 404 "no such element" none)
    [.findElement "css selector" "h1", .getStatus, .sendKeysSlowly "e1" "ab" 100 (fun _ => 0),
      .setFile "e1" ["/tmp/a.txt"]] (activeState "s1") (by
        intro c hc
        simp only [List.mem_cons, List.mem_singleton, List.not_mem_nil, or_false] at hc
        rcases hc with rfl | rfl | rfl | rfl <;>
          exact ⟨fun _ h => (by cases h), fun h => (by cases h)⟩)).1

end Invariant

/-! ## Padding -/

section Padding

open detail

/-- The loop does not look past the first `=`. -/
theorem base64DecodeLoop_stops_at_pad (norm : Nat → Nat) (cs : List Char) (rest : List Char) :
    '=' ∉ cs → ∀ (bitBuffer bitCount : Nat) (out : List Nat),
      base64DecodeLoop norm (cs ++ '=' :: rest) bitBuffer bitCount out =
        base64DecodeLoop norm cs bitBuffer bitCount out := by
  induction cs with
  | nil =>
    intro _ bitBuffer bitCount out
    simp [base64DecodeLoop]
  | cons c cs ih =>
    intro h bitBuffer bitCount out
    have hc : c ≠ '=' := fun hc => h (by simp [hc])
    have hcs : '=' ∉ cs := fun hcs => h (List.mem_cons_of_mem _ hcs)
    rw [List.cons_append, base64DecodeLoop, base64DecodeLoop, if_neg hc, if_neg hc]
    cases base64Value c with
    | error e => rfl
    | ok val =>
      dsimp only
      split
      · exact ih hcs _ _ _
      · split
        · exact ih hcs _ _ _
        · exact ih hcs _ _ _

/-- C21: for every string `s` without `=` and every string `t`, decoding `s ++ "=" ++ t`
has the outcome of decoding `s`, the same bytes or the same failure. -/
theorem base64Decode_ignores_after_pad (s t : String) (hs : '=' ∉ s.toList) :
    base64Decode (s ++ "=" ++ t) = base64Decode s := by
  unfold base64Decode
  have h : (s ++ "=" ++ t).toList = s.toList ++ '=' :: t.toList := by
    simp [String.toList, String.data_append]
  rw [h]
  exact base64DecodeLoop_stops_at_pad wrap32 s.toList t.toList hs 0 0 []

/-- C21, at a padded group followed by characters outside the alphabet, and at a failing
prefix. -/
theorem base64Decode_ignores_after_pad_witness :
    base64Decode ("TQ" ++ "=" ++ "= *\n") = base64Decode "TQ" ∧
      base64Decode ("T Q" ++ "=" ++ "AAAA") = base64Decode "T Q" :=
  ⟨base64Decode_ignores_after_pad "TQ" "= *\n" (by decide),
    base64Decode_ignores_after_pad "T Q" "AAAA" (by decide)⟩

end Padding
/-! ## Slow typing: requests and sleeps -/

section SlowTyping

end SlowTyping

/-! ## Slow typing: the delay -/

section SlowKeys

/-- The delay for a base delay whose sum with 20 fits a signed 32-bit integer. -/
theorem slowDelay_eq (b : Nat) (j : Int) (hb : (b : Int) + 20 ≤ 2147483647)
    (hlo : -20 ≤ j) (hhi : j ≤ 20) :
    (slowDelay b j : Int) = max 0 ((b : Int) + j) := by
  have h1 : toInt32 (b : Int) = b := by
    unfold toInt32
    rw [if_pos (by omega)]
    omega
  have h2 : toInt32 ((b : Int) + j) = (b : Int) + j := by
    unfold toInt32
    by_cases hneg : (b : Int) + j < 0
    · rw [if_neg (by omega)]; omega
    · rw [if_pos (by omega)]; omega
  unfold slowDelay
  simp only [h1, h2]
  by_cases hneg : (b : Int) + j < 0
  · rw [if_pos hneg]; simp; omega
  · rw [if_neg hneg, Int.toNat_of_nonneg (by omega)]; omega

/-- The sleeps of the slow-typing loop: each one is the delay of a draw. -/
theorem sendKeysSlowlyLoop_waits (env : Env) (eid : String) (b : Nat) (dist : Nat → Int)
    (cs : List Nat) :
    ∀ (i : Nat) (st : State), ∃ ws,
      (sendKeysSlowlyLoop env eid b dist cs i st).2.waits = st.waits ++ ws ∧
        ∀ w ∈ ws, ∃ k, w = slowDelay b (dist k) := by
  induction cs with
  | nil => intro i st; exact ⟨[], by simp [sendKeysSlowlyLoop], by simp⟩
  | cons c cs ih =>
    intro i st
    have hk : (sendKeysByte env eid c st).2.waits = st.waits := by
      unfold sendKeysByte
      split
      · unfold sendKeys discard
        split
        · rfl
        · exact (request_sid env _ _ _ st).2
      · split <;> rfl
    rw [sendKeysSlowlyLoop]
    cases hr : sendKeysByte env eid c st with
    | mk r st1 =>
      rw [hr] at hk
      cases r with
      | error e =>
        have hk2 : st1.waits = st.waits := hk
        exact ⟨[], by rw [List.append_nil]; exact hk2, by simp⟩
      | ok u =>
        dsimp only
        obtain ⟨ws, hws, hall⟩ := ih (i + 1) (waitMS (slowDelay b (dist i)) st1).2
        refine ⟨slowDelay b (dist i) :: ws, ?_, ?_⟩
        · have hk2 : st1.waits = st.waits := hk
          rw [hws]
          show (st1.waits ++ [slowDelay b (dist i)]) ++ ws = _
          rw [hk2, List.append_assoc]
          rfl
        · intro w hw
          rcases List.mem_cons.mp hw with h | hw
          · exact ⟨i, h⟩
          · exact hall w hw

/-- C23: for a base delay `b` with `b + 20` in the signed 32-bit range and a jitter in
[-20, 20], the delay is `max 0 (b + j)`, so it lies between `max 0 (b - 20)` and `b + 20`;
and when every draw is in [-20, 20], every sleep `sendKeysSlowly` asks for lies in that
interval. -/
theorem slowDelay_bounds (b : Nat) (hb : (b : Int) + 20 ≤ 2147483647) :
    (∀ j : Int, -20 ≤ j → j ≤ 20 →
      (slowDelay b j : Int) = max 0 ((b : Int) + j) ∧
        max 0 ((b : Int) - 20) ≤ (slowDelay b j : Int) ∧ (slowDelay b j : Int) ≤ (b : Int) + 20) ∧
    (∀ (env : Env) (eid text : String) (dist : Nat → Int) (st : State),
      (∀ i, -20 ≤ dist i ∧ dist i ≤ 20) →
      ∃ ws, (sendKeysSlowly env eid text b dist st).2.waits = st.waits ++ ws ∧
        ∀ w ∈ ws, max 0 ((b : Int) - 20) ≤ (w : Int) ∧ (w : Int) ≤ (b : Int) + 20) := by
  have hone : ∀ j : Int, -20 ≤ j → j ≤ 20 →
      (slowDelay b j : Int) = max 0 ((b : Int) + j) ∧
        max 0 ((b : Int) - 20) ≤ (slowDelay b j : Int) ∧
        (slowDelay b j : Int) ≤ (b : Int) + 20 := by
    intro j hlo hhi
    have h := slowDelay_eq b j hb hlo hhi
    refine ⟨h, ?_, ?_⟩ <;> rw [h] <;> omega
  refine ⟨hone, ?_⟩
  intro env eid text dist st hdist
  obtain ⟨ws, hws, hall⟩ := sendKeysSlowlyLoop_waits env eid b dist (stringBytes text) 0 st
  refine ⟨ws, hws, ?_⟩
  intro w hw
  obtain ⟨k, hk⟩ := hall w hw
  rw [hk]
  exact (hone (dist k) (hdist k).1 (hdist k).2).2

/-- C23, at the default base delay 100 with the jitter -20, and at the base delay 5 with
the jitter -20, which is clamped to 0. -/
theorem slowDelay_bounds_witness :
    (slowDelay 100 (-20) : Int) = max 0 ((100 : Nat) + (-20) : Int) ∧
      (slowDelay 5 (-20) : Int) = max 0 ((5 : Nat) + (-20) : Int) :=
  ⟨((slowDelay_bounds 100 (by norm_num)).1 (-20) (by norm_num) (by norm_num)).1,
    ((slowDelay_bounds 5 (by norm_num)).1 (-20) (by norm_num) (by norm_num)).1⟩

end SlowKeys

/-! ## The method error is unreachable

The lemmas `noLogicError_*` follow the shape of the methods: the guard, the call of
`request` with a literal method, and the narrowing of the value. -/

section Unreachable

theorem noLogicError_request (env : Env) (method path : String) (payload : Option Json)
    (st : State) (m : Method) (hm : toMethod method = some m) :
    NoLogicError (request env method path payload st).1 := by
  intro what
  rw [request_of_method env method path payload st m hm]
  split
  · simp
  · split
    · simp
    · split <;> simp

theorem noLogicError_bind {α β : Type} (r : Except Error α) (f : α → Except Error β)
    (hr : NoLogicError r) (hf : ∀ a, NoLogicError (f a)) : NoLogicError (r.bind f) := by
  intro what
  cases r with
  | error e =>
    intro h
    have he : e = .logic_error what :=
      Except.error.inj (show (Except.error e : Except Error β) = _ from h)
    exact hr what (by rw [he])
  | ok a => exact hf a what

theorem noLogicError_map {α β : Type} (r : Except Error α) (f : α → β)
    (hr : NoLogicError r) : NoLogicError (r.map f) := by
  intro what
  cases r with
  | error e =>
    intro h
    have he : e = .logic_error what :=
      Except.error.inj (show (Except.error e : Except Error β) = _ from h)
    exact hr what (by rw [he])
  | ok a => intro h; cases h

theorem noLogicError_getString (j : Json) : NoLogicError j.getString := by
  intro what; cases j <;> simp [Json.getString]

theorem noLogicError_getBool (j : Json) : NoLogicError j.getBool := by
  intro what; cases j <;> simp [Json.getBool]

theorem noLogicError_atKey (j : Json) (key : String) : NoLogicError (j.atKey key) := by
  intro what
  cases j <;> simp [Json.atKey]
  split <;> simp

theorem noLogicError_value (j : Json) (key dflt : String) :
    NoLogicError (j.value key dflt) := by
  intro what
  cases j <;> simp [Json.value]
  split
  · exact noLogicError_getString _ what
  · simp

theorem noLogicError_mapM {α β : Type} (f : α → Except Error β) (hf : ∀ a, NoLogicError (f a))
    (xs : List α) : NoLogicError (xs.mapM f) := by
  induction xs with
  | nil => intro what h; cases h
  | cons x xs ih =>
    rw [List.mapM_cons]
    exact noLogicError_bind _ _ (hf x) (fun b =>
      noLogicError_bind _ _ ih (fun bs => fun what h => by cases h))

theorem noLogicError_elementRef (v : Json) :
    NoLogicError ((v.atKey elementKey).bind Json.getString) :=
  noLogicError_bind _ _ (noLogicError_atKey v elementKey) noLogicError_getString

theorem noLogicError_elementIds (arr : Json) : NoLogicError (elementIds arr) :=
  noLogicError_mapM _ noLogicError_elementRef _

theorem noLogicError_getStringList (j : Json) : NoLogicError j.getStringList := by
  cases j with
  | arr xs => exact noLogicError_mapM _ noLogicError_getString xs
  | _ => intro what h; cases h

theorem noLogicError_getJsonList (j : Json) : NoLogicError j.getJsonList := by
  intro what; cases j <;> simp [Json.getJsonList]

theorem noLogicError_guard {α : Type} (st : State) :
    NoLogicError (α := α) ((.error (.runtime_error "Session not created"), st) :
      Except Error α × State).1 := by
  intro what h; cases h

theorem noLogicError_error {α β : Type} (e : Error)
    (h : NoLogicError (Except.error e : Except Error α)) :
    NoLogicError (Except.error e : Except Error β) := by
  intro what hw
  exact h what (by rw [Except.error.inj hw])

theorem noLogicError_discard (r : Except Error Json × State) (hr : NoLogicError r.1) :
    NoLogicError (discard r).1 :=
  noLogicError_map _ _ hr

theorem noLogicError_narrow {α : Type} (f : Json → Except Error α)
    (hf : ∀ v, NoLogicError (f v)) (r : Except Error Json × State) (hr : NoLogicError r.1) :
    NoLogicError (narrow f r).1 :=
  noLogicError_bind _ _ hr hf

theorem noLogicError_createSession (env : Env) (caps : Json) (st : State) :
    NoLogicError (createSession env caps st).1 := by
  have hreq := noLogicError_request env "POST" "/session" (some caps) st Method.POST rfl
  unfold createSession
  cases hr : request env "POST" "/session" (some caps) st with
  | mk r st1 =>
    rw [hr] at hreq
    cases r with
    | error e => exact noLogicError_error e hreq
    | ok v =>
      dsimp only
      have h1 := noLogicError_value v "session_id" ""
      cases hv1 : v.value "session_id" "" with
      | error e => rw [hv1] at h1; exact h1
      | ok dflt =>
        dsimp only
        have h2 := noLogicError_value v "sessionId" dflt
        cases hv2 : v.value "sessionId" dflt with
        | error e => rw [hv2] at h2; exact h2
        | ok s => intro what h; cases h

theorem noLogicError_deleteSession (env : Env) (st : State) :
    NoLogicError (deleteSession env st).1 := by
  have hreq := noLogicError_request env "DELETE" ("/session/" ++ st.sid) none st Method.DEL rfl
  unfold deleteSession
  split
  · intro what h; cases h
  · cases hr : request env "DELETE" ("/session/" ++ st.sid) none st with
    | mk r st1 =>
      rw [hr] at hreq
      cases r with
      | error e => exact noLogicError_error e hreq
      | ok v => intro what h; cases h

theorem noLogicError_sendKeys (env : Env) (eid text : String) (st : State) :
    NoLogicError (sendKeys env eid text st).1 := by
  unfold sendKeys
  split
  · intro what h; cases h
  · exact noLogicError_discard _ (noLogicError_request _ _ _ _ _ Method.POST rfl)

theorem noLogicError_sendKeysByte (env : Env) (eid : String) (b : Nat) (st : State) :
    NoLogicError (sendKeysByte env eid b st).1 := by
  unfold sendKeysByte
  split
  · exact noLogicError_sendKeys env eid _ st
  · split <;> (intro what h; cases h)

theorem noLogicError_sendKeysSlowlyLoop (env : Env) (eid : String) (b : Nat)
    (dist : Nat → Int) (cs : List Nat) :
    ∀ (i : Nat) (st : State), NoLogicError (sendKeysSlowlyLoop env eid b dist cs i st).1 := by
  induction cs with
  | nil => intro i st what h; cases h
  | cons c cs ih =>
    intro i st
    have hk := noLogicError_sendKeysByte env eid c st
    rw [sendKeysSlowlyLoop]
    cases hr : sendKeysByte env eid c st with
    | mk r st1 =>
      rw [hr] at hk
      cases r with
      | error e => exact hk
      | ok u => exact ih (i + 1) _

/-- No call of a public method ends in a `std::logic_error`. -/
theorem noLogicError_runCall (env : Env) (c : Call) (st : State) :
    NoLogicError (runCall env c st).1 := by
  cases c with
  | createSession caps => exact noLogicError_map _ _ (noLogicError_createSession env caps st)
  | deleteSession => exact noLogicError_map _ _ (noLogicError_deleteSession env st)
  | getStatus =>
    exact noLogicError_map _ _ (noLogicError_request _ _ _ _ _ Method.GET rfl)
  | waitMS ms => intro what h; cases h
  | sendKeys eid text => exact noLogicError_map _ _ (noLogicError_sendKeys env eid text st)
  | sendKeysSlowly eid text b dist =>
    exact noLogicError_map _ _ (noLogicError_sendKeysSlowlyLoop env eid b dist (stringBytes text) 0 st)
  | setFile elementId filePaths =>
    exact noLogicError_map _ _
      (noLogicError_discard _ (noLogicError_request _ _ _ _ _ Method.POST rfl))
  | _ =>
    refine noLogicError_map _ _ ?_
    simp only [navigateTo, getCurrentUrl, back, forward, refresh,
      getTitle, setTimeouts, getTimeouts, getWindowHandle, getWindowHandles, closeWindow,
      switchWindow, getWindowRect, setWindowRect, maximizeWindow, minimizeWindow,
      fullscreenWindow, switchFrame, switchToParentFrame, findElement, findElements,
      findChildElement, findChildElements, getElementAttribute, getElementProperty,
      getElementText, getElementTagName, isElementSelected, isElementEnabled,
      getElementRect, clickElement, clearElement, executeScript,
      executeAsyncScript, getAllCookies, getCookie, addCookie, deleteCookie,
      deleteAllCookies, acceptAlert, dismissAlert, getAlertText, setAlertText,
      takeScreenshot, takeElementScreenshot, printPage, performActions]
    split
    · intro what h; cases h
    · first
      | exact noLogicError_request _ _ _ _ _ Method.GET rfl
      | exact noLogicError_request _ _ _ _ _ Method.POST rfl
      | exact noLogicError_discard _ (noLogicError_request _ _ _ _ _ Method.POST rfl)
      | exact noLogicError_discard _ (noLogicError_request _ _ _ _ _ Method.DEL rfl)
      | exact noLogicError_narrow _ noLogicError_getString _
          (noLogicError_request _ _ _ _ _ Method.GET rfl)
      | exact noLogicError_narrow _ noLogicError_getBool _
          (noLogicError_request _ _ _ _ _ Method.GET rfl)
      | exact noLogicError_narrow _ noLogicError_getStringList _
          (noLogicError_request _ _ _ _ _ Method.GET rfl)
      | exact noLogicError_narrow _ noLogicError_getJsonList _
          (noLogicError_request _ _ _ _ _ Method.GET rfl)
      | exact noLogicError_narrow _ noLogicError_elementIds _
          (noLogicError_request _ _ _ _ _ Method.POST rfl)
      | exact noLogicError_narrow _ noLogicError_elementRef _
          (noLogicError_request _ _ _ _ _ Method.POST rfl)

/-- C24: no call of a public method, whatever its arguments and the state of the client,
ends in the dispatcher's "Unsupported HTTP method" error, nor in any other
`std::logic_error`: every call of `request` in the methods passes "GET", "POST" or
"DELETE". -/
theorem unsupported_method_unreachable (env : Env) (c : Call) (st : State) :
    (runCall env c st).1 ≠ .error (.logic_error "Unsupported HTTP method") ∧
      ∀ what, (runCall env c st).1 ≠ .error (.logic_error what) :=
  ⟨noLogicError_runCall env c st "Unsupported HTTP method", noLogicError_runCall env c st⟩

end Unreachable

/-! ## Overflow of the bit buffer -/

section Overflow

open detail

/-- Comparison of characters is comparison of their codes. -/
theorem char_le_iff (a b : Char) : a ≤ b ↔ a.toNat ≤ b.toNat := by
  rw [Char.le_def]
  exact Iff.rfl

/-- A value returned by `base64Value` is -1 or a 6-bit value. -/
theorem base64Value_range (c : Char) (val : Int) (h : base64Value c = .ok val) :
    val = -1 ∨ (0 ≤ val ∧ val < 64) := by
  unfold base64Value at h
  split at h
  · rename_i hc
    rw [char_le_iff, char_le_iff] at hc
    have h1 : 'A'.toNat = 65 := rfl
    have h2 : 'Z'.toNat = 90 := rfl
    injection h with h
    omega
  · split at h
    · rename_i hc
      rw [char_le_iff, char_le_iff] at hc
      have h1 : 'a'.toNat = 97 := rfl
      have h2 : 'z'.toNat = 122 := rfl
      injection h with h
      omega
    · split at h
      · rename_i hc
        rw [char_le_iff, char_le_iff] at hc
        have h1 : '0'.toNat = 48 := rfl
        have h2 : '9'.toNat = 57 := rfl
        injection h with h
        omega
      · split at h
        · injection h with h; omega
        · split at h
          · injection h with h; omega
          · split at h
            · injection h with h; omega
            · cases h

/-- The buffer update and the byte read, in arithmetic form, for a 6-bit value. -/
theorem shift_or_eq (bitBuffer v : Nat) (hv : v < 64) :
    (bitBuffer <<< 6) ||| v = bitBuffer * 64 + v := by
  have h := Nat.mul_add_lt_is_or (show v < 2 ^ 6 from hv) bitBuffer
  rw [Nat.shiftLeft_eq, Nat.mul_comm, ← h]

/-- The byte read from a buffer depends on the low 12 bits of the buffer only. -/
theorem byte_of_low_bits (b1 b2 k : Nat) (hk : k = 0 ∨ k = 2 ∨ k = 4)
    (h : b1 % 4096 = b2 % 4096) :
    (b1 >>> k) &&& 0xFF = (b2 >>> k) &&& 0xFF := by
  have hand : ∀ x : Nat, x &&& 0xFF = x % 256 := fun x => Nat.and_pow_two_sub_one_eq_mod x 8
  rw [hand, hand, Nat.shiftRight_eq_div_pow, Nat.shiftRight_eq_div_pow]
  rcases hk with rfl | rfl | rfl <;> norm_num <;> omega

/-- Two runs of the loop whose buffers agree on the low 12 bits, one with a store that
keeps the low 12 bits and one with the exact store, give the same result. -/
theorem base64DecodeLoop_low_bits (norm : Nat → Nat) (hnorm : ∀ x, norm x % 4096 = x % 4096)
    (cs : List Char) :
    ∀ (b1 b2 bitCount : Nat) (out : List Nat), b1 % 4096 = b2 % 4096 →
      (bitCount = 0 ∨ bitCount = 2 ∨ bitCount = 4 ∨ bitCount = 6) →
      base64DecodeLoop norm cs b1 bitCount out =
        base64DecodeLoop (fun x => x) cs b2 bitCount out := by
  induction cs with
  | nil => intro b1 b2 bitCount out _ _; rfl
  | cons c cs ih =>
    intro b1 b2 bitCount out hb hcnt
    rw [base64DecodeLoop, base64DecodeLoop]
    by_cases hpad : c = '='
    · rw [if_pos hpad, if_pos hpad]
    · rw [if_neg hpad, if_neg hpad]
      cases hval : base64Value c with
      | error e => rfl
      | ok val =>
        dsimp only
        by_cases hneg : val = -1
        · rw [if_pos hneg, if_pos hneg]
          exact ih b1 b2 bitCount out hb hcnt
        · rw [if_neg hneg, if_neg hneg]
          have hv : val.toNat < 64 := by
            rcases base64Value_range c val hval with h | h
            · exact absurd h hneg
            · omega
          rw [shift_or_eq b1 _ hv, shift_or_eq b2 _ hv]
          have hnew : norm (b1 * 64 + val.toNat) % 4096 = (b2 * 64 + val.toNat) % 4096 := by
            rw [hnorm]; omega
          by_cases hge : bitCount + 6 ≥ 8
          · rw [if_pos hge, if_pos hge,
              byte_of_low_bits _ (b2 * 64 + val.toNat) (bitCount + 6 - 8) (by omega) hnew]
            exact ih _ _ _ _ hnew (by omega)
          · rw [if_neg hge, if_neg hge]
            exact ih _ _ _ _ hnew (by omega)

/-- The 32-bit store keeps the low 12 bits. -/
theorem wrap32_low_bits (x : Nat) : wrap32 x % 4096 = x % 4096 := by
  unfold wrap32
  omega

/-- C25: for every input, the decoder with the bit buffer wrapping modulo 2^32 returns what
the decoder with an unbounded buffer returns; the same holds for every store that keeps
the low 12 bits of the buffer, since a byte is read from those bits only. -/
theorem base64Decode_overflow_irrelevant (input : String) :
    base64Decode input = base64DecodeUnbounded input ∧
      ∀ norm : Nat → Nat, (∀ x, norm x % 4096 = x % 4096) →
        base64DecodeLoop norm input.toList 0 0 [] = base64DecodeUnbounded input :=
  ⟨base64DecodeLoop_low_bits wrap32 wrap32_low_bits input.toList 0 0 0 [] rfl (Or.inl rfl),
    fun norm hnorm =>
      base64DecodeLoop_low_bits norm hnorm input.toList 0 0 0 [] rfl (Or.inl rfl)⟩

/-- C25, at an input of twelve characters, whose 72 bits overflow a 32-bit buffer, with a
store that keeps the low 12 bits and nothing else. -/
theorem base64Decode_overflow_irrelevant_witness :
    base64DecodeLoop (fun x => x % 4096) "TWFuTWFuTWFu".toList 0 0 [] =
      base64DecodeUnbounded "TWFuTWFuTWFu" :=
  (base64Decode_overflow_irrelevant "TWFuTWFuTWFu").2 (fun x => x % 4096)
    (fun x => Nat.mod_mod x 4096)

end Overflow

end WebDriver
